import Mathlib

set_option maxRecDepth 8000

namespace ChitChats

/-- A JavaScript/JSON value, as far as the server's argument handling
inspects it.  Numeric JSON values are modelled as integers: the schemas and
handlers only pass numbers through, render them, or compare them with zero. -/
inductive JsValue where
  | str (s : String)
  | num (n : Int)
  | boolean (b : Bool)
  | null
  | undefined
  | arr (elems : List JsValue)
  | obj (fields : List (String × JsValue))

/-- JavaScript truthiness of a value (`""`, `0`, `false`, `null` and
`undefined` are falsy; arrays and objects are always truthy). -/
def JsValue.truthy : JsValue → Bool
  | .str s => s != ""
  | .num n => n != 0
  | .boolean b => b
  | .null => false
  | .undefined => false
  | .arr _ => true
  | .obj _ => true

/-- `x || d` for a possibly-absent string `x` (JS `||`: both a missing value
and the empty string fall through to the default). -/
def jsOrS : Option String → String → String
  | some s, d => if s = "" then d else s
  | none, d => d

/-- `x || d` for a string that is known to be present. -/
def jsOrD (s d : String) : String := if s = "" then d else s

/-- Truthiness of a possibly-absent string. -/
def tS : Option String → Bool
  | some s => s != ""
  | none => false

/-- Truthiness of a possibly-absent number. -/
def tN : Option Int → Bool
  | some n => n != 0
  | none => false

/-- Truthiness of a possibly-absent boolean. -/
def tB : Option Bool → Bool
  | some b => b
  | none => false

/-- `if (v) lines.push(f(v))` for a string-valued field. -/
def optLineS (v : Option String) (f : String → String) : List String :=
  match v with
  | some s => if s = "" then [] else [f s]
  | none => []

/-- `if (v) lines.push(f(v))` for a number-valued field. -/
def optLineN (v : Option Int) (f : Int → String) : List String :=
  match v with
  | some n => if n = 0 then [] else [f n]
  | none => []

/-- JS template-literal rendering of a possibly-undefined string
(`${undefined}` renders as `"undefined"`). -/
def jsTemplate : Option String → String
  | some s => s
  | none => "undefined"

/-- Process configuration as read from the environment by the client module
(`CHITCHATS_CLIENT_ID`, `CHITCHATS_ACCESS_TOKEN`, `CHITCHATS_BASE_URL`). -/
structure Env where
  clientId : Option String
  accessToken : Option String
  baseUrlVar : Option String
deriving DecidableEq

/-- `process.env.CHITCHATS_BASE_URL || "https://chitchats.com"` -/
def envBaseUrl (e : Env) : String :=
  match e.baseUrlVar with
  | some s => jsOrD s "https://chitchats.com"
  | none => "https://chitchats.com"

/-- The client module logs a warning at load time when either credential is
missing (`if (!CLIENT_ID || !ACCESS_TOKEN) console.error(...)`); it does not
abort and continues to construct the client. -/
def missingCredWarning (e : Env) : Bool :=
  !(tS e.clientId) || !(tS e.accessToken)

/-- The configuration captured by the `ChitChatsClient` constructor. -/
structure ClientConfig where
  baseUrl : String
  accessToken : String
deriving DecidableEq

/-- `ChitChatsClient` construction: the base URL embeds the client id via a
template literal (an absent id renders as the literal text `undefined`), and
the access token falls back to the empty string. -/
def mkClient (e : Env) : ClientConfig :=
  { baseUrl := envBaseUrl e ++ "/api/v1/clients/" ++ jsTemplate e.clientId
  , accessToken := jsOrS e.accessToken "" }

/-- An outgoing HTTP request as assembled by the client. -/
structure HttpRequest where
  method : String
  url : String
  authorization : Option String
  contentType : Option String
  body : Option (List (String × JsValue))

/-- A thrown JS value: an `Error` with a message, or anything else. -/
inductive JsThrow where
  | jsError (msg : String)
  | other
deriving DecidableEq

/-- `err instanceof Error ? err.message : "Unknown error"` -/
def throwMessage : JsThrow → String
  | .jsError m => m
  | .other => "Unknown error"

/-- A shipment line item (interface `LineItem` in `tools/shipments.ts`). -/
structure LineItem where
  quantity : Int
  description : String
  value_amount : String
  currency_code : String
  hs_tariff_code : Option String
  sku_code : Option String
  origin_country : Option String
  weight : Option Int
  weight_unit : Option String
  manufacturer_id : Option String
  manufacturer_contact : Option String
  manufacturer_street : Option String
  manufacturer_street_2 : Option String
  manufacturer_city : Option String
  manufacturer_postal_code : Option String
  manufacturer_province_code : Option String
  manufacturer_country_code : Option String
  manufacturer_phone : Option String
  manufacturer_email : Option String
deriving DecidableEq

/-- A shipping rate option (interface `Rate` in `tools/shipments.ts`). -/
structure Rate where
  postage_type : String
  postage_carrier_type : String
  postage_description : String
  delivery_time_description : Option String
  tracking_type_description : Option String
  signature_confirmation_description : Option String
  delivery_duties_paid_description : Option String
  is_insured : Bool
  purchase_amount : String
  payment_amount : Option String
  postage_fee : String
  insurance_fee : Option String
  delivery_fee : Option String
  tariff_fee : Option String
  broker_conveyance_fee : Option String
  shipment_items_fee : Option String
  fda_prior_notification_fee : Option String
  federal_tax : Option String
  provincial_tax : Option String
deriving DecidableEq

/-- A shipment (interface `Shipment` in `tools/shipments.ts`). -/
structure Shipment where
  id : String
  status : String
  batch_id : Option Int
  order_id : Option String
  order_store : Option String
  to_name : String
  to_address_1 : Option String
  to_address_2 : Option String
  to_city : String
  to_province_code : String
  to_postal_code : Option String
  to_country_code : String
  to_phone : Option String
  to_email : Option String
  return_name : Option String
  return_address_1 : Option String
  return_address_2 : Option String
  return_city : Option String
  return_province_code : Option String
  return_postal_code : Option String
  return_country_code : Option String
  return_phone : Option String
  is_return_dispose : Option Bool
  package_contents : Option String
  description : Option String
  value : Option String
  value_currency : Option String
  package_type : Option String
  size_unit : Option String
  size_x : Option Int
  size_y : Option Int
  size_z : Option Int
  weight_unit : Option String
  weight : Option Int
  is_insured : Option Bool
  is_insurance_requested : Option Bool
  is_media_mail_requested : Option Bool
  is_signature_requested : Option Bool
  is_delivery_duties_paid_requested : Option Bool
  postage_type : Option String
  carrier : Option String
  carrier_tracking_code : Option String
  tracking_url : Option String
  ship_date : Option String
  purchase_amount : Option String
  postage_fee : Option String
  insurance_fee : Option String
  delivery_fee : Option String
  tariff_fee : Option String
  broker_conveyance_fee : Option String
  shipment_items_fee : Option String
  fda_prior_notification_fee : Option String
  federal_tax : Option String
  federal_tax_label : Option String
  provincial_tax : Option String
  provincial_tax_label : Option String
  postage_label_png_url : Option String
  postage_label_pdf_url : Option String
  postage_label_zpl_url : Option String
  line_items : Option (List LineItem)
  rates : Option (List Rate)
  created_at : String
deriving DecidableEq

/-- A batch (interface `Batch` in `tools/batches.ts`). -/
structure Batch where
  id : String
  status : String
  description : Option String
  shipment_count : Option Int
  created_at : String
deriving DecidableEq

/-- A return shipment (interface `Return` in `tools/returns.ts`). -/
structure ReturnShipment where
  id : String
  status : String
  reason : Option String
  shipment_id : Option String
  created_at : String
deriving DecidableEq

/-- A tracking event (interface `TrackingEvent` in `tools/tracking.ts`). -/
structure TrackingEvent where
  date : String
  description : String
  location : Option String
deriving DecidableEq

/-- Public tracking data (interface `TrackingInfo` in `tools/tracking.ts`). -/
structure TrackingInfo where
  shipment_id : String
  status : String
  carrier : Option String
  tracking_number : Option String
  estimated_delivery : Option String
  events : Option (List TrackingEvent)
deriving DecidableEq

/-- The JSON payload carried by a remote response, restricted to the shapes
the handlers consume (`response.json()` is untyped in the source; the model
covers bodies of the shapes the endpoints declare, plus `rawEmpty` for any
other body). -/
inductive Payload where
  | shipments (xs : List Shipment)
  | shipmentW (shipment : Option Shipment)
  | counted (count : Option Int)
  | batches (xs : List Batch)
  | batchW (batch : Option Batch)
  | returnsList (xs : List ReturnShipment)
  | tracked (t : TrackingInfo)
  | rawEmpty
deriving DecidableEq

/-- `response.data?.shipment`: property access yields `undefined` on any
payload without that field. -/
def shipmentField : Option Payload → Option Shipment
  | some (.shipmentW s) => s
  | _ => none

/-- `response.data?.batch` -/
def batchField : Option Payload → Option Batch
  | some (.batchW b) => b
  | _ => none

/-- `response.data?.count` -/
def countField : Option Payload → Option Int
  | some (.counted c) => c
  | _ => none

/-- `response.data || []` for a list endpoint (the model restricts attention
to remotes whose body is the declared array shape, or absent). -/
def asShipments : Option Payload → List Shipment
  | some (.shipments xs) => xs
  | _ => []

/-- `response.data || []` for the batch list endpoint. -/
def asBatches : Option Payload → List Batch
  | some (.batches xs) => xs
  | _ => []

/-- `response.data || []` for the returns list endpoint. -/
def asReturns : Option Payload → List ReturnShipment
  | some (.returnsList xs) => xs
  | _ => []

/-- `response.data as TrackingInfo | undefined` -/
def asTracking : Option Payload → Option TrackingInfo
  | some (.tracked t) => some t
  | _ => none

/-- The uniform result of a client call (interface `ApiResponse` in
`client.ts`): optional data, optional error message, and a status code. -/
structure ApiResponse where
  data : Option Payload
  error : Option String
  status : Nat
deriving DecidableEq

/-- The parsed JSON body of a remote response: the `error` and `message`
fields the client inspects on failures, plus the typed payload view. -/
structure JsonBody where
  errorField : Option String
  messageField : Option String
  value : Payload
deriving DecidableEq

/-- The outcome of one `fetch`: either a response (status, optional
`Retry-After` header, and the body's JSON-parse result) or a network-level
failure (the `fetch` promise rejected). -/
inductive FetchResult where
  | response (status : Nat) (retryAfter : Option String) (body : Except JsThrow JsonBody)
  | failure (thrown : JsThrow)

/-- The remote host, as a function from the request sent to the fetch
outcome. -/
def Remote := HttpRequest → FetchResult

/-- The request assembled by `ChitChatsClient.request`: base URL plus
endpoint, the access token as the authorization header, and a JSON
content type exactly when a body is attached. -/
def buildRequest (c : ClientConfig) (method endpoint : String)
    (body : Option (List (String × JsValue))) : HttpRequest :=
  { method := method
  , url := c.baseUrl ++ endpoint
  , authorization := some c.accessToken
  , contentType := if body.isSome then some "application/json" else none
  , body := body }

/-- Normalization performed by `ChitChatsClient.request` on the fetch
outcome: 429 is special-cased before the body is read, then 204, then the
body is parsed and non-2xx statuses map to `data.error || data.message ||
"HTTP {status}"`; any thrown failure is caught and returned as an error
with status 500. -/
def normalize (fr : FetchResult) : ApiResponse :=
  match fr with
  | .failure t => { data := none, error := some (throwMessage t), status := 500 }
  | .response status retryAfter body =>
    if status = 429 then
      { data := none
      , error := some ("Rate limited. Retry after " ++ jsOrS retryAfter "unknown" ++ " seconds.")
      , status := 429 }
    else if status = 204 then
      { data := none, error := none, status := 204 }
    else
      match body with
      | .error t => { data := none, error := some (throwMessage t), status := 500 }
      | .ok j =>
        if 200 ≤ status && status ≤ 299 then
          { data := some j.value, error := none, status := status }
        else
          { data := none
          , error := some (jsOrS j.errorField (jsOrS j.messageField ("HTTP " ++ toString status)))
          , status := status }

/-- `ChitChatsClient.request`: always sends exactly one request and
normalizes whatever comes back. -/
def request (c : ClientConfig) (method endpoint : String)
    (body : Option (List (String × JsValue))) (remote : Remote) :
    ApiResponse × List HttpRequest :=
  (normalize (remote (buildRequest c method endpoint body)), [buildRequest c method endpoint body])

/-- `ChitChatsClient.get` -/
def clientGet (c : ClientConfig) (endpoint : String) (remote : Remote) :
    ApiResponse × List HttpRequest :=
  request c "GET" endpoint none remote

/-- `ChitChatsClient.post` -/
def clientPost (c : ClientConfig) (endpoint : String)
    (body : Option (List (String × JsValue))) (remote : Remote) :
    ApiResponse × List HttpRequest :=
  request c "POST" endpoint body remote

/-- `ChitChatsClient.patch` -/
def clientPatch (c : ClientConfig) (endpoint : String)
    (body : Option (List (String × JsValue))) (remote : Remote) :
    ApiResponse × List HttpRequest :=
  request c "PATCH" endpoint body remote

/-- `ChitChatsClient.delete` -/
def clientDelete (c : ClientConfig) (endpoint : String) (remote : Remote) :
    ApiResponse × List HttpRequest :=
  request c "DELETE" endpoint none remote

/-- The unauthenticated fetch issued by `getPublicTracking`. -/
def publicTrackingRequest (e : Env) (shipmentId : String) : HttpRequest :=
  { method := "GET"
  , url := envBaseUrl e ++ "/tracking/" ++ shipmentId ++ ".json"
  , authorization := none
  , contentType := none
  , body := none }

/-- `ChitChatsClient.getPublicTracking`: fetches the fixed tracking path
with no headers, parses the body, and returns `{ data, status }` for any
status; only a thrown failure is normalized (to an error with status
500). -/
def getPublicTracking (e : Env) (shipmentId : String) (remote : Remote) :
    ApiResponse × List HttpRequest :=
  ((match remote (publicTrackingRequest e shipmentId) with
    | .failure t => { data := none, error := some (throwMessage t), status := 500 }
    | .response status _ body =>
      match body with
      | .error t => { data := none, error := some (throwMessage t), status := 500 }
      | .ok j => { data := some j.value, error := none, status := status })
  , [publicTrackingRequest e shipmentId])

/-- JS property access `fields[k]`: an absent key reads as `undefined`. -/
def getField (fields : List (String × JsValue)) (k : String) : JsValue :=
  match fields.lookup k with
  | some v => v
  | none => .undefined

/-- Modelled from the spec: the Parameter Validator of section 4.2 (the zod
library implementing it is not part of the repository sources).  A required
string field: missing is a failure naming the field, a non-string value is a
type failure. -/
def zReqString (k : String) (v : JsValue) : Except String String :=
  match v with
  | .str s => .ok s
  | .undefined => .error (k ++ ": Required")
  | _ => .error (k ++ ": Expected string")

/-- Modelled from the spec: optional string field — absent is omitted (not
defaulted), a non-string value is a type failure. -/
def zOptString (k : String) (v : JsValue) : Except String (Option String) :=
  match v with
  | .str s => .ok (some s)
  | .undefined => .ok none
  | _ => .error (k ++ ": Expected string")

/-- Modelled from the spec: optional numeric field with optional bounds. -/
def zOptNumber (k : String) (lo hi : Option Int) (v : JsValue) :
    Except String (Option Int) :=
  match v with
  | .undefined => .ok none
  | .num n =>
    if lo.any (fun l => n < l) then .error (k ++ ": Too small")
    else if hi.any (fun h => h < n) then .error (k ++ ": Too big")
    else .ok (some n)
  | _ => .error (k ++ ": Expected number")

/-- Modelled from the spec: optional enumerated field — a present value
outside the enumeration is a failure naming the field. -/
def zOptEnum (k : String) (allowed : List String) (v : JsValue) :
    Except String (Option String) :=
  match v with
  | .undefined => .ok none
  | .str s => if allowed.contains s then .ok (some s) else .error (k ++ ": Invalid enum value")
  | _ => .error (k ++ ": Expected string")

/-- Modelled from the spec: required array-of-strings field. -/
def zReqStringArray (k : String) (v : JsValue) : Except String (List String) :=
  match v with
  | .undefined => .error (k ++ ": Required")
  | .arr elems =>
    elems.mapM (fun el =>
      match el with
      | .str s => Except.ok s
      | _ => Except.error (k ++ ": Expected array of strings"))
  | _ => .error (k ++ ": Expected array")

/-- Validated parameters of `ListShipmentsSchema`. -/
structure ListShipmentsParams where
  limit : Option Int
  page : Option Int
  batch_id : Option String
  status : Option String
  from_date : Option String
  to_date : Option String
  search : Option String
deriving DecidableEq

/-- Validated parameters of the one-field `{ id: string }` schemas
(`GetShipmentSchema`, `DeleteShipmentSchema`, `BuyPostageSchema`,
`RefundShipmentSchema`, `GetBatchSchema`, `DeleteBatchSchema`,
`TrackShipmentSchema`). -/
structure IdParams where
  id : String
deriving DecidableEq

/-- Validated parameters of `CreateShipmentSchema`. -/
structure CreateShipmentParams where
  name : String
  address_1 : String
  address_2 : Option String
  city : String
  province_code : String
  postal_code : String
  country_code : String
  phone : Option String
  email : Option String
  package_type : Option String
  size_unit : Option String
  size_x : Option Int
  size_y : Option Int
  size_z : Option Int
  weight_unit : Option String
  weight : Option Int
  description : Option String
  value : Option Int
  value_currency : Option String
  order_id : Option String
  order_store : Option String
  postage_type : Option String
deriving DecidableEq

/-- Validated parameters of `RefreshRatesSchema`. -/
structure RefreshRatesParams where
  id : String
  size_x : Option Int
  size_y : Option Int
  size_z : Option Int
  weight : Option Int
deriving DecidableEq

/-- Validated parameters of `CountShipmentsSchema` and `ListReturnsSchema`
style status-only filters. -/
structure StatusParams where
  status : Option String
deriving DecidableEq

/-- Validated parameters of `ListBatchesSchema`. -/
structure ListBatchesParams where
  limit : Option Int
  page : Option Int
  status : Option String
deriving DecidableEq

/-- Validated parameters of `CreateBatchSchema`. -/
structure CreateBatchParams where
  description : Option String
deriving DecidableEq

/-- Validated parameters of `AddToBatchSchema`. -/
structure AddToBatchParams where
  batch_id : String
  shipment_ids : List String
deriving DecidableEq

/-- Validated parameters of `RemoveFromBatchSchema`. -/
structure RemoveFromBatchParams where
  shipment_ids : List String
deriving DecidableEq

/-- Validated parameters of `ListReturnsSchema`. -/
structure ListReturnsParams where
  limit : Option Int
  page : Option Int
  status : Option String
  reason : Option String
deriving DecidableEq

/-- `ListShipmentsSchema` over a field getter. -/
def parseListShipmentsG (g : String → JsValue) : Except String ListShipmentsParams := do
  let limit ← zOptNumber "limit" (some 1) (some 1000) (g "limit")
  let page ← zOptNumber "page" (some 1) none (g "page")
  let batch_id ← zOptString "batch_id" (g "batch_id")
  let status ← zOptString "status" (g "status")
  let from_date ← zOptString "from_date" (g "from_date")
  let to_date ← zOptString "to_date" (g "to_date")
  let search ← zOptString "search" (g "search")
  pure { limit, page, batch_id, status, from_date, to_date, search }

/-- The `{ id: z.string() }` schemas over a field getter. -/
def parseIdG (g : String → JsValue) : Except String IdParams := do
  let id ← zReqString "id" (g "id")
  pure { id }

/-- `CreateShipmentSchema` over a field getter. -/
def parseCreateShipmentG (g : String → JsValue) : Except String CreateShipmentParams := do
  let name ← zReqString "name" (g "name")
  let address_1 ← zReqString "address_1" (g "address_1")
  let address_2 ← zOptString "address_2" (g "address_2")
  let city ← zReqString "city" (g "city")
  let province_code ← zReqString "province_code" (g "province_code")
  let postal_code ← zReqString "postal_code" (g "postal_code")
  let country_code ← zReqString "country_code" (g "country_code")
  let phone ← zOptString "phone" (g "phone")
  let email ← zOptString "email" (g "email")
  let package_type ← zOptEnum "package_type" ["parcel", "thick_envelope", "flat_rate_envelope"] (g "package_type")
  let size_unit ← zOptEnum "size_unit" ["cm", "in"] (g "size_unit")
  let size_x ← zOptNumber "size_x" none none (g "size_x")
  let size_y ← zOptNumber "size_y" none none (g "size_y")
  let size_z ← zOptNumber "size_z" none none (g "size_z")
  let weight_unit ← zOptEnum "weight_unit" ["g", "kg", "oz", "lb"] (g "weight_unit")
  let weight ← zOptNumber "weight" none none (g "weight")
  let description ← zOptString "description" (g "description")
  let value ← zOptNumber "value" none none (g "value")
  let value_currency ← zOptEnum "value_currency" ["CAD", "USD"] (g "value_currency")
  let order_id ← zOptString "order_id" (g "order_id")
  let order_store ← zOptString "order_store" (g "order_store")
  let postage_type ← zOptString "postage_type" (g "postage_type")
  pure { name, address_1, address_2, city, province_code, postal_code, country_code,
         phone, email, package_type, size_unit, size_x, size_y, size_z, weight_unit,
         weight, description, value, value_currency, order_id, order_store, postage_type }

/-- `RefreshRatesSchema` over a field getter. -/
def parseRefreshRatesG (g : String → JsValue) : Except String RefreshRatesParams := do
  let id ← zReqString "id" (g "id")
  let size_x ← zOptNumber "size_x" none none (g "size_x")
  let size_y ← zOptNumber "size_y" none none (g "size_y")
  let size_z ← zOptNumber "size_z" none none (g "size_z")
  let weight ← zOptNumber "weight" none none (g "weight")
  pure { id, size_x, size_y, size_z, weight }

/-- `CountShipmentsSchema` over a field getter. -/
def parseCountShipmentsG (g : String → JsValue) : Except String StatusParams := do
  let status ← zOptString "status" (g "status")
  pure { status }

/-- `ListBatchesSchema` over a field getter. -/
def parseListBatchesG (g : String → JsValue) : Except String ListBatchesParams := do
  let limit ← zOptNumber "limit" (some 1) (some 1000) (g "limit")
  let page ← zOptNumber "page" (some 1) none (g "page")
  let status ← zOptEnum "status" ["pending", "received"] (g "status")
  pure { limit, page, status }

/-- `CreateBatchSchema` over a field getter. -/
def parseCreateBatchG (g : String → JsValue) : Except String CreateBatchParams := do
  let description ← zOptString "description" (g "description")
  pure { description }

/-- `AddToBatchSchema` over a field getter. -/
def parseAddToBatchG (g : String → JsValue) : Except String AddToBatchParams := do
  let batch_id ← zReqString "batch_id" (g "batch_id")
  let shipment_ids ← zReqStringArray "shipment_ids" (g "shipment_ids")
  pure { batch_id, shipment_ids }

/-- `RemoveFromBatchSchema` over a field getter. -/
def parseRemoveFromBatchG (g : String → JsValue) : Except String RemoveFromBatchParams := do
  let shipment_ids ← zReqStringArray "shipment_ids" (g "shipment_ids")
  pure { shipment_ids }

/-- `CountBatchesSchema` over a field getter. -/
def parseCountBatchesG (g : String → JsValue) : Except String StatusParams := do
  let status ← zOptEnum "status" ["pending", "received"] (g "status")
  pure { status }

/-- `ListReturnsSchema` over a field getter. -/
def parseListReturnsG (g : String → JsValue) : Except String ListReturnsParams := do
  let limit ← zOptNumber "limit" (some 1) (some 1000) (g "limit")
  let page ← zOptNumber "page" (some 1) none (g "page")
  let status ← zOptString "status" (g "status")
  let reason ← zOptString "reason" (g "reason")
  pure { limit, page, status, reason }

/-- Lift a getter-based object schema to a whole-value parse: a non-object
input is rejected, an object exposes its fields (unknown keys are simply
never read — the whitelist behaviour). -/
def parseObj {α : Type} (pg : (String → JsValue) → Except String α)
    (v : JsValue) : Except String α :=
  match v with
  | .obj fields => pg (getField fields)
  | _ => .error "Expected object"

/-- `URLSearchParams.toString()` over the parameters set, in insertion
order.  Percent-encoding of individual characters is abstracted away; no
claim depends on it. -/
def searchParamsToString (ps : List (String × String)) : String :=
  String.intercalate "&" (ps.map (fun kv => kv.1 ++ "=" ++ kv.2))

/-- `if (v) queryParams.set(k, v)` for a string parameter. -/
def qS (k : String) (v : Option String) : List (String × String) :=
  match v with
  | some s => if s = "" then [] else [(k, s)]
  | none => []

/-- `if (v) queryParams.set(k, v.toString())` for a numeric parameter. -/
def qN (k : String) (v : Option Int) : List (String × String) :=
  match v with
  | some n => if n = 0 then [] else [(k, toString n)]
  | none => []

/-- Append the query string when it is nonempty. -/
def withQuery (path : String) (ps : List (String × String)) : String :=
  let query := searchParamsToString ps
  path ++ (if query = "" then "" else "?" ++ query)

/-- `[...new Set(xs)]`: deduplication preserving first occurrences. -/
def jsSetDedupAux (seen : List String) : List String → List String
  | [] => []
  | x :: xs =>
    if seen.contains x then jsSetDedupAux seen xs
    else x :: jsSetDedupAux (x :: seen) xs

/-- `[...new Set(xs)]` -/
def jsSetDedup (xs : List String) : List String := jsSetDedupAux [] xs

/-- `.filter(Boolean)` over possibly-absent strings. -/
def filterTruthyStrs (l : List (Option String)) : List String :=
  l.filterMap (fun o =>
    match o with
    | some s => if s = "" then none else some s
    | none => none)

/-- JS template-literal rendering of a possibly-undefined number. -/
def numTemplate : Option Int → String
  | some n => toString n
  | none => "undefined"

/-- `s.weight || "?"` style rendering of a possibly-absent number. -/
def numOrQ : Option Int → String
  | some n => if n = 0 then "?" else toString n
  | none => "?"

/-- The endpoint built by `listShipments` from its filters. -/
def listShipmentsEndpoint (p : ListShipmentsParams) : String :=
  withQuery "/shipments"
    (qN "limit" p.limit ++ qN "page" p.page ++ qS "batch_id" p.batch_id
      ++ qS "status" p.status ++ qS "from_date" p.from_date
      ++ qS "to_date" p.to_date ++ qS "search" p.search)

/-- The `HS Codes:` line of a shipment summary, from the deduplicated
truthy HS codes of its line items. -/
def hsCodesLines (s : Shipment) : List String :=
  match s.line_items with
  | some items =>
    if items.length > 0 then
      let hs := jsSetDedup (filterTruthyStrs (items.map (fun li => li.hs_tariff_code)))
      if hs.length > 0 then ["HS Codes: " ++ String.intercalate ", " hs] else []
    else []
  | none => []

/-- One shipment block of the `listShipments` output. -/
def formatShipmentSummary (s : Shipment) : String :=
  String.intercalate "\n"
    (["ID: " ++ s.id, "Status: " ++ s.status,
      "Recipient: " ++ s.to_name ++ ", " ++ s.to_city ++ ", " ++ s.to_province_code ++ ", " ++ s.to_country_code]
     ++ optLineS s.order_id (fun v => "Order ID: " ++ v)
     ++ optLineS s.carrier (fun v => "Carrier: " ++ v)
     ++ optLineS s.postage_type (fun v => "Postage Type: " ++ v)
     ++ optLineS s.purchase_amount (fun v => "Total Cost: $" ++ v)
     ++ optLineS s.carrier_tracking_code (fun v => "Tracking: " ++ v)
     ++ hsCodesLines s
     ++ (if s.created_at = "" then [] else ["Created: " ++ s.created_at]))

/-- The `listShipments` tool handler. -/
def listShipments (c : ClientConfig) (p : ListShipmentsParams) (remote : Remote) :
    String × List HttpRequest :=
  let rr := clientGet c (listShipmentsEndpoint p) remote
  ( if tS rr.1.error then
      "Error listing shipments: " ++ jsTemplate rr.1.error
    else
      let shipments := asShipments rr.1.data
      if shipments.length = 0 then
        "No shipments found matching your criteria."
      else
        "Found " ++ toString shipments.length ++ " shipment(s):\n\n"
          ++ String.intercalate "\n\n---\n\n" (shipments.map formatShipmentSummary)
  , rr.2)

/-- One line-item block of the `getShipment` detail output. -/
def detailLineItemBlock (item : LineItem) : List String :=
  ["**" ++ toString item.quantity ++ "x " ++ item.description ++ "**",
   "  - Value: $" ++ item.value_amount ++ " " ++ item.currency_code.toUpper]
  ++ optLineS item.hs_tariff_code (fun v => "  - HS Code: " ++ v)
  ++ optLineS item.sku_code (fun v => "  - SKU: " ++ v)
  ++ optLineS item.origin_country (fun v => "  - Origin: " ++ v)
  ++ optLineN item.weight (fun w => "  - Weight: " ++ toString w ++ " " ++ jsOrS item.weight_unit "g")
  ++ (match item.manufacturer_id with
      | some mid =>
        if mid = "" then []
        else
          ["  - Manufacturer ID: " ++ mid]
          ++ (if tS item.manufacturer_city then
                ["  - Manufacturer: " ++ jsTemplate item.manufacturer_city ++ ", "
                  ++ jsOrS item.manufacturer_province_code ""]
              else [])
      | none => [])

/-- One rate block of the `getShipment` detail output. -/
def detailRateBlock (rate : Rate) : List String :=
  ["**" ++ rate.postage_description ++ "** (" ++ rate.postage_type ++ ")",
   "  - Cost: $" ++ jsOrS rate.payment_amount rate.purchase_amount]
  ++ optLineS rate.delivery_time_description (fun v => "  - Delivery: " ++ v)
  ++ optLineS rate.tracking_type_description (fun v => "  - Tracking: " ++ v)
  ++ optLineS rate.tariff_fee (fun v => "  - Tariff: $" ++ v)

/-- The `**Services:**` entries of the `getShipment` detail output. -/
def servicesList (s : Shipment) : List String :=
  (if tB s.is_insured then ["Insured"] else [])
  ++ (if tB s.is_signature_requested then ["Signature Required"] else [])
  ++ (if tB s.is_delivery_duties_paid_requested then ["DDP"] else [])
  ++ (if tB s.is_media_mail_requested then ["Media Mail"] else [])

/-- The full markdown detail of a shipment, as `getShipment` renders it. -/
def formatShipmentDetail (s : Shipment) : String :=
  String.intercalate "\n"
    (["## Shipment " ++ s.id, "", "**Status:** " ++ s.status]
     ++ optLineS s.order_id (fun v => "**Order ID:** " ++ v)
     ++ optLineS s.order_store (fun v => "**Store:** " ++ v)
     ++ optLineN s.batch_id (fun n => "**Batch ID:** " ++ toString n)
     ++ ["", "### Recipient", "**Name:** " ++ s.to_name]
     ++ (if tS s.to_address_1 then
           ["**Address:** " ++ jsTemplate s.to_address_1
             ++ (if tS s.to_address_2 then ", " ++ jsTemplate s.to_address_2 else "")]
         else [])
     ++ ["**City:** " ++ s.to_city ++ ", " ++ s.to_province_code ++ " " ++ jsOrS s.to_postal_code "",
         "**Country:** " ++ s.to_country_code]
     ++ optLineS s.to_phone (fun v => "**Phone:** " ++ v)
     ++ optLineS s.to_email (fun v => "**Email:** " ++ v)
     ++ ["", "### Package"]
     ++ optLineS s.package_type (fun v => "**Type:** " ++ v)
     ++ optLineS s.package_contents (fun v => "**Contents Type:** " ++ v)
     ++ optLineS s.description (fun v => "**Description:** " ++ v)
     ++ (if tN s.size_x && tN s.size_y && tN s.size_z then
           ["**Dimensions:** " ++ numTemplate s.size_x ++ " x " ++ numTemplate s.size_y
             ++ " x " ++ numTemplate s.size_z ++ " " ++ jsOrS s.size_unit ""]
         else [])
     ++ optLineN s.weight (fun w => "**Weight:** " ++ toString w ++ " " ++ jsOrS s.weight_unit "")
     ++ optLineS s.value (fun v => "**Declared Value:** $" ++ v ++ " " ++ jsOrS s.value_currency "")
     ++ (if (servicesList s).length > 0 then
           ["**Services:** " ++ String.intercalate ", " (servicesList s)]
         else [])
     ++ ["", "### Shipping"]
     ++ optLineS s.carrier (fun v => "**Carrier:** " ++ v)
     ++ optLineS s.postage_type (fun v => "**Postage Type:** " ++ v)
     ++ optLineS s.carrier_tracking_code (fun v => "**Tracking Number:** " ++ v)
     ++ optLineS s.tracking_url (fun v => "**Tracking URL:** " ++ v)
     ++ optLineS s.ship_date (fun v => "**Ship Date:** " ++ v)
     ++ ["", "### Cost Breakdown"]
     ++ optLineS s.purchase_amount (fun v => "**Total Paid:** $" ++ v)
     ++ optLineS s.postage_fee (fun v => "- Postage: $" ++ v)
     ++ optLineS s.tariff_fee (fun v => "- Tariff/Duty: $" ++ v)
     ++ optLineS s.broker_conveyance_fee (fun v => "- Broker Fee: $" ++ v)
     ++ optLineS s.shipment_items_fee (fun v => "- Items Fee: $" ++ v)
     ++ optLineS s.insurance_fee (fun v => "- Insurance: $" ++ v)
     ++ optLineS s.delivery_fee (fun v => "- Delivery: $" ++ v)
     ++ optLineS s.fda_prior_notification_fee (fun v => "- FDA Fee: $" ++ v)
     ++ optLineS s.federal_tax (fun v => "- " ++ jsOrS s.federal_tax_label "Federal Tax" ++ ": $" ++ v)
     ++ optLineS s.provincial_tax (fun v => "- " ++ jsOrS s.provincial_tax_label "Provincial Tax" ++ ": $" ++ v)
     ++ (match s.line_items with
         | some items =>
           if items.length > 0 then ["", "### Line Items"] ++ (items.map detailLineItemBlock).flatten
           else []
         | none => [])
     ++ (match s.rates with
         | some rs =>
           if rs.length > 0 then ["", "### Available Rates"] ++ (rs.map detailRateBlock).flatten
           else []
         | none => [])
     ++ (if tS s.postage_label_png_url || tS s.postage_label_pdf_url then
           ["", "### Labels"]
           ++ optLineS s.postage_label_png_url (fun v => "- PNG: " ++ v)
           ++ optLineS s.postage_label_pdf_url (fun v => "- PDF: " ++ v)
           ++ optLineS s.postage_label_zpl_url (fun v => "- ZPL: " ++ v)
         else [])
     ++ (if tS s.return_name then
           ["", "### Return Address", jsTemplate s.return_name]
           ++ optLineS s.return_address_1 (fun v => v)
           ++ [jsTemplate s.return_city ++ ", " ++ jsTemplate s.return_province_code
                ++ " " ++ jsTemplate s.return_postal_code,
               jsTemplate s.return_country_code]
         else [])
     ++ ["", "**Created:** " ++ s.created_at])

/-- The `getShipment` tool handler. -/
def getShipment (c : ClientConfig) (p : IdParams) (remote : Remote) :
    String × List HttpRequest :=
  let rr := clientGet c ("/shipments/" ++ p.id) remote
  ( if tS rr.1.error then
      "Error getting shipment: " ++ jsTemplate rr.1.error
    else
      match shipmentField rr.1.data with
      | none => "Shipment " ++ p.id ++ " not found."
      | some s => formatShipmentDetail s
  , rr.2)

/-- One rate block of the `getShipmentRates` output. -/
def ratesRateBlock (rate : Rate) : List String :=
  ["### " ++ rate.postage_description,
   "- **Type:** " ++ rate.postage_type,
   "- **Carrier:** " ++ rate.postage_carrier_type,
   "- **Total Cost:** $" ++ jsOrS rate.payment_amount rate.purchase_amount,
   "  - Postage: $" ++ rate.postage_fee]
  ++ optLineS rate.tariff_fee (fun v => "  - Tariff: $" ++ v)
  ++ optLineS rate.broker_conveyance_fee (fun v => "  - Broker: $" ++ v)
  ++ optLineS rate.shipment_items_fee (fun v => "  - Items Fee: $" ++ v)
  ++ optLineS rate.insurance_fee (fun v => "  - Insurance: $" ++ v)
  ++ optLineS rate.delivery_time_description (fun v => "- **Delivery:** " ++ v)
  ++ optLineS rate.tracking_type_description (fun v => "- **Tracking:** " ++ v)
  ++ (if rate.is_insured then ["- **Insured:** Yes"] else [])
  ++ [""]

/-- The `getShipmentRates` tool handler. -/
def getShipmentRates (c : ClientConfig) (p : IdParams) (remote : Remote) :
    String × List HttpRequest :=
  let rr := clientGet c ("/shipments/" ++ p.id) remote
  ( if tS rr.1.error then
      "Error getting shipment rates: " ++ jsTemplate rr.1.error
    else
      match shipmentField rr.1.data with
      | none => "Shipment " ++ p.id ++ " not found."
      | some s =>
        match s.rates with
        | none => "No rates available for shipment " ++ p.id ++ ". The shipment may already have postage purchased."
        | some rs =>
          if rs.length = 0 then
            "No rates available for shipment " ++ p.id ++ ". The shipment may already have postage purchased."
          else
            String.intercalate "\n"
              (["## Available Rates for Shipment " ++ s.id, "",
                "Destination: " ++ s.to_city ++ ", " ++ s.to_province_code ++ ", " ++ s.to_country_code,
                "Package: " ++ numOrQ s.weight ++ " " ++ jsOrS s.weight_unit "g" ++ ", "
                  ++ numOrQ s.size_x ++ "x" ++ numOrQ s.size_y ++ "x" ++ numOrQ s.size_z
                  ++ " " ++ jsOrS s.size_unit "",
                ""]
               ++ (rs.map ratesRateBlock).flatten)
  , rr.2)

/-- The `getShipmentLabels` tool handler. -/
def getShipmentLabels (c : ClientConfig) (p : IdParams) (remote : Remote) :
    String × List HttpRequest :=
  let rr := clientGet c ("/shipments/" ++ p.id) remote
  ( if tS rr.1.error then
      "Error getting shipment labels: " ++ jsTemplate rr.1.error
    else
      match shipmentField rr.1.data with
      | none => "Shipment " ++ p.id ++ " not found."
      | some s =>
        if !(tS s.postage_label_png_url) && !(tS s.postage_label_pdf_url) then
          "No labels available for shipment " ++ p.id ++ ". Postage may not have been purchased yet."
        else
          String.intercalate "\n"
            (["## Labels for Shipment " ++ s.id, "",
              "Order: " ++ jsOrS s.order_id "N/A",
              "Recipient: " ++ s.to_name ++ ", " ++ s.to_city ++ ", " ++ s.to_country_code,
              "Carrier: " ++ jsOrS s.carrier "N/A",
              "Tracking: " ++ jsOrS s.carrier_tracking_code "N/A",
              "", "### Download URLs"]
             ++ optLineS s.postage_label_png_url (fun v => "- **PNG:** " ++ v)
             ++ optLineS s.postage_label_pdf_url (fun v => "- **PDF:** " ++ v)
             ++ optLineS s.postage_label_zpl_url (fun v => "- **ZPL:** " ++ v))
  , rr.2)

/-- One line-item block of the `getShipmentLineItems` output. -/
def lineItemsBlock (item : LineItem) : List String :=
  ["### " ++ item.description,
   "- **Quantity:** " ++ toString item.quantity,
   "- **Value:** $" ++ item.value_amount ++ " " ++ item.currency_code.toUpper]
  ++ optLineS item.hs_tariff_code (fun v => "- **HS Tariff Code:** " ++ v)
  ++ optLineS item.sku_code (fun v => "- **SKU:** " ++ v)
  ++ optLineS item.origin_country (fun v => "- **Country of Origin:** " ++ v)
  ++ optLineN item.weight (fun w => "- **Weight:** " ++ toString w ++ " " ++ jsOrS item.weight_unit "g")
  ++ (match item.manufacturer_id with
      | some mid =>
        if mid = "" then []
        else
          ["", "**Manufacturer:**", "  - ID: " ++ mid]
          ++ optLineS item.manufacturer_contact (fun v => "  - Contact: " ++ v)
          ++ optLineS item.manufacturer_street (fun v => "  - Address: " ++ v)
          ++ (if tS item.manufacturer_city then
                ["  - Location: " ++ jsTemplate item.manufacturer_city ++ ", "
                  ++ jsOrS item.manufacturer_province_code "" ++ " "
                  ++ jsOrS item.manufacturer_postal_code ""]
              else [])
          ++ optLineS item.manufacturer_phone (fun v => "  - Phone: " ++ v)
          ++ optLineS item.manufacturer_email (fun v => "  - Email: " ++ v)
      | none => [])
  ++ [""]

/-- The `getShipmentLineItems` tool handler. -/
def getShipmentLineItems (c : ClientConfig) (p : IdParams) (remote : Remote) :
    String × List HttpRequest :=
  let rr := clientGet c ("/shipments/" ++ p.id) remote
  ( if tS rr.1.error then
      "Error getting line items: " ++ jsTemplate rr.1.error
    else
      match shipmentField rr.1.data with
      | none => "Shipment " ++ p.id ++ " not found."
      | some s =>
        match s.line_items with
        | none => "No line items found for shipment " ++ p.id ++ "."
        | some items =>
          if items.length = 0 then
            "No line items found for shipment " ++ p.id ++ "."
          else
            String.intercalate "\n"
              (["## Line Items for Shipment " ++ s.id, "",
                "Order: " ++ jsOrS s.order_id "N/A",
                "Recipient: " ++ s.to_name ++ ", " ++ s.to_country_code,
                ""]
               ++ (items.map lineItemsBlock).flatten)
  , rr.2)

/-- `if (v) body.k = v` for an optional string field of an outgoing body. -/
def bS (k : String) (v : Option String) : List (String × JsValue) :=
  match v with
  | some s => if s = "" then [] else [(k, .str s)]
  | none => []

/-- `if (v) body.k = v` for an optional numeric field of an outgoing body. -/
def bN (k : String) (v : Option Int) : List (String × JsValue) :=
  match v with
  | some n => if n = 0 then [] else [(k, .num n)]
  | none => []

/-- The outgoing request body assembled by `createShipment`: the six
required fields unconditionally, then each optional field only when its
value is JS-truthy. -/
def createShipmentBody (p : CreateShipmentParams) : List (String × JsValue) :=
  [("name", .str p.name), ("address_1", .str p.address_1), ("city", .str p.city),
   ("province_code", .str p.province_code), ("postal_code", .str p.postal_code),
   ("country_code", .str p.country_code)]
  ++ bS "address_2" p.address_2
  ++ bS "phone" p.phone
  ++ bS "email" p.email
  ++ bS "package_type" p.package_type
  ++ bS "size_unit" p.size_unit
  ++ bN "size_x" p.size_x
  ++ bN "size_y" p.size_y
  ++ bN "size_z" p.size_z
  ++ bS "weight_unit" p.weight_unit
  ++ bN "weight" p.weight
  ++ bS "description" p.description
  ++ bN "value" p.value
  ++ bS "value_currency" p.value_currency
  ++ bS "order_id" p.order_id
  ++ bS "order_store" p.order_store
  ++ bS "postage_type" p.postage_type

/-- The `createShipment` tool handler. -/
def createShipment (c : ClientConfig) (p : CreateShipmentParams) (remote : Remote) :
    String × List HttpRequest :=
  let rr := clientPost c "/shipments" (some (createShipmentBody p)) remote
  ( if tS rr.1.error then
      "Error creating shipment: " ++ jsTemplate rr.1.error
    else
      match shipmentField rr.1.data with
      | none => "Shipment created but no data returned."
      | some s =>
        "Shipment created successfully!\n\nID: " ++ s.id ++ "\nStatus: " ++ s.status
          ++ "\nRecipient: " ++ s.to_name ++ ", " ++ s.to_city ++ ", " ++ s.to_country_code
  , rr.2)

/-- The `deleteShipment` tool handler. -/
def deleteShipment (c : ClientConfig) (p : IdParams) (remote : Remote) :
    String × List HttpRequest :=
  let rr := clientDelete c ("/shipments/" ++ p.id) remote
  ( if tS rr.1.error then
      "Error deleting shipment: " ++ jsTemplate rr.1.error ++ ". Note: Only unpaid shipments can be deleted."
    else
      "Shipment " ++ p.id ++ " deleted successfully."
  , rr.2)

/-- The `buyPostage` tool handler. -/
def buyPostage (c : ClientConfig) (p : IdParams) (remote : Remote) :
    String × List HttpRequest :=
  let rr := clientPatch c ("/shipments/" ++ p.id ++ "/buy") none remote
  ( if tS rr.1.error then
      "Error purchasing postage: " ++ jsTemplate rr.1.error
    else
      match shipmentField rr.1.data with
      | none => "Postage purchase initiated. Poll the shipment status to check completion."
      | some s =>
        String.intercalate "\n"
          (["Postage purchased for shipment " ++ s.id ++ "!", "", "Status: " ++ s.status]
           ++ optLineS s.purchase_amount (fun v => "Total Cost: $" ++ v)
           ++ optLineS s.carrier_tracking_code (fun v => "Tracking Number: " ++ v))
  , rr.2)

/-- The `refundShipment` tool handler. -/
def refundShipment (c : ClientConfig) (p : IdParams) (remote : Remote) :
    String × List HttpRequest :=
  let rr := clientPatch c ("/shipments/" ++ p.id ++ "/refund") none remote
  ( if tS rr.1.error then
      "Error requesting refund: " ++ jsTemplate rr.1.error
    else
      "Refund requested for shipment " ++ p.id ++ ". Check shipment status for updates."
  , rr.2)

/-- The body assembled by `refreshRates` from the truthy updates. -/
def refreshRatesBody (p : RefreshRatesParams) : List (String × JsValue) :=
  bN "size_x" p.size_x ++ bN "size_y" p.size_y ++ bN "size_z" p.size_z ++ bN "weight" p.weight

/-- The `refreshRates` tool handler (`Object.keys(body).length > 0 ? body :
undefined` drops an empty update object). -/
def refreshRates (c : ClientConfig) (p : RefreshRatesParams) (remote : Remote) :
    String × List HttpRequest :=
  let body := refreshRatesBody p
  let rr := clientPatch c ("/shipments/" ++ p.id ++ "/refresh")
    (if body.length > 0 then some body else none) remote
  ( if tS rr.1.error then
      "Error refreshing rates: " ++ jsTemplate rr.1.error
    else
      match shipmentField rr.1.data with
      | none => "Rates refreshed for shipment " ++ p.id ++ "."
      | some s =>
        "Rates refreshed for shipment " ++ s.id ++ ".\n\nCurrent postage type: "
          ++ jsOrS s.postage_type "Not set"
          ++ (match s.rates with
              | some rs =>
                if rs.length > 0 then
                  "\n\nAvailable rates:\n"
                    ++ String.join (rs.map (fun r =>
                        "- " ++ r.postage_description ++ ": $"
                          ++ jsOrS r.payment_amount r.purchase_amount ++ "\n"))
                else ""
              | none => "")
  , rr.2)

/-- ` with status "..."` suffix of the count outputs. -/
def countStatusText (status : Option String) : String :=
  match status with
  | some s => if s = "" then "" else " with status \"" ++ s ++ "\""
  | none => ""

/-- The `countShipments` tool handler (`response.data?.count ?? 0`). -/
def countShipments (c : ClientConfig) (p : StatusParams) (remote : Remote) :
    String × List HttpRequest :=
  let rr := clientGet c (withQuery "/shipments/count" (qS "status" p.status)) remote
  ( if tS rr.1.error then
      "Error counting shipments: " ++ jsTemplate rr.1.error
    else
      "Total shipments" ++ countStatusText p.status ++ ": "
        ++ toString ((countField rr.1.data).getD 0)
  , rr.2)

/-- One batch block of the `listBatches` output (`shipment_count` is shown
whenever present, even when zero: the source tests `!== undefined`). -/
def formatBatchSummary (b : Batch) : String :=
  String.intercalate "\n"
    (["ID: " ++ b.id, "Status: " ++ b.status]
     ++ optLineS b.description (fun v => "Description: " ++ v)
     ++ (match b.shipment_count with
         | some n => ["Shipments: " ++ toString n]
         | none => [])
     ++ ["Created: " ++ b.created_at])

/-- The `listBatches` tool handler. -/
def listBatches (c : ClientConfig) (p : ListBatchesParams) (remote : Remote) :
    String × List HttpRequest :=
  let rr := clientGet c
    (withQuery "/batches" (qN "limit" p.limit ++ qN "page" p.page ++ qS "status" p.status)) remote
  ( if tS rr.1.error then
      "Error listing batches: " ++ jsTemplate rr.1.error
    else
      let batches := asBatches rr.1.data
      if batches.length = 0 then
        "No batches found."
      else
        "Found " ++ toString batches.length ++ " batch(es):\n\n"
          ++ String.intercalate "\n\n---\n\n" (batches.map formatBatchSummary)
  , rr.2)

/-- The `createBatch` tool handler (the body object is always passed, even
when empty). -/
def createBatch (c : ClientConfig) (p : CreateBatchParams) (remote : Remote) :
    String × List HttpRequest :=
  let rr := clientPost c "/batches" (some (bS "description" p.description)) remote
  ( if tS rr.1.error then
      "Error creating batch: " ++ jsTemplate rr.1.error
    else
      match batchField rr.1.data with
      | none => "Batch created but no data returned."
      | some b =>
        "Batch created successfully!\n\nID: " ++ b.id ++ "\nStatus: " ++ b.status
          ++ (if tS b.description then "\nDescription: " ++ jsTemplate b.description else "")
  , rr.2)

/-- The `getBatch` tool handler. -/
def getBatch (c : ClientConfig) (p : IdParams) (remote : Remote) :
    String × List HttpRequest :=
  let rr := clientGet c ("/batches/" ++ p.id) remote
  ( if tS rr.1.error then
      "Error getting batch: " ++ jsTemplate rr.1.error
    else
      match batchField rr.1.data with
      | none => "Batch " ++ p.id ++ " not found."
      | some b =>
        String.intercalate "\n"
          (["## Batch " ++ b.id, "", "**Status:** " ++ b.status]
           ++ optLineS b.description (fun v => "**Description:** " ++ v)
           ++ (match b.shipment_count with
               | some n => ["**Shipments:** " ++ toString n]
               | none => [])
           ++ ["**Created:** " ++ b.created_at])
  , rr.2)

/-- The `deleteBatch` tool handler. -/
def deleteBatch (c : ClientConfig) (p : IdParams) (remote : Remote) :
    String × List HttpRequest :=
  let rr := clientDelete c ("/batches/" ++ p.id) remote
  ( if tS rr.1.error then
      "Error deleting batch: " ++ jsTemplate rr.1.error ++ ". Note: Only empty batches can be deleted."
    else
      "Batch " ++ p.id ++ " deleted successfully."
  , rr.2)

/-- The `addToBatch` tool handler. -/
def addToBatch (c : ClientConfig) (p : AddToBatchParams) (remote : Remote) :
    String × List HttpRequest :=
  let body : List (String × JsValue) :=
    [("batch_id", .str p.batch_id), ("shipment_ids", .arr (p.shipment_ids.map JsValue.str))]
  let rr := clientPatch c "/shipments/add_to_batch" (some body) remote
  ( if tS rr.1.error then
      "Error adding shipments to batch: " ++ jsTemplate rr.1.error
    else
      "Successfully added " ++ toString p.shipment_ids.length
        ++ " shipment(s) to batch " ++ p.batch_id ++ "."
  , rr.2)

/-- The `removeFromBatch` tool handler. -/
def removeFromBatch (c : ClientConfig) (p : RemoveFromBatchParams) (remote : Remote) :
    String × List HttpRequest :=
  let body : List (String × JsValue) :=
    [("shipment_ids", .arr (p.shipment_ids.map JsValue.str))]
  let rr := clientPatch c "/shipments/remove_from_batch" (some body) remote
  ( if tS rr.1.error then
      "Error removing shipments from batch: " ++ jsTemplate rr.1.error
    else
      "Successfully removed " ++ toString p.shipment_ids.length
        ++ " shipment(s) from their batches."
  , rr.2)

/-- The `countBatches` tool handler (`response.data?.count ?? 0`). -/
def countBatches (c : ClientConfig) (p : StatusParams) (remote : Remote) :
    String × List HttpRequest :=
  let rr := clientGet c (withQuery "/batches/count" (qS "status" p.status)) remote
  ( if tS rr.1.error then
      "Error counting batches: " ++ jsTemplate rr.1.error
    else
      "Total batches" ++ countStatusText p.status ++ ": "
        ++ toString ((countField rr.1.data).getD 0)
  , rr.2)

/-- One return block of the `listReturns` output. -/
def formatReturnSummary (r : ReturnShipment) : String :=
  String.intercalate "\n"
    (["ID: " ++ r.id, "Status: " ++ r.status]
     ++ optLineS r.reason (fun v => "Reason: " ++ v)
     ++ optLineS r.shipment_id (fun v => "Shipment ID: " ++ v)
     ++ ["Created: " ++ r.created_at])

/-- The `listReturns` tool handler. -/
def listReturns (c : ClientConfig) (p : ListReturnsParams) (remote : Remote) :
    String × List HttpRequest :=
  let rr := clientGet c
    (withQuery "/returns"
      (qN "limit" p.limit ++ qN "page" p.page ++ qS "status" p.status ++ qS "reason" p.reason))
    remote
  ( if tS rr.1.error then
      "Error listing returns: " ++ jsTemplate rr.1.error
    else
      let rets := asReturns rr.1.data
      if rets.length = 0 then
        "No returns found matching your criteria."
      else
        "Found " ++ toString rets.length ++ " return(s):\n\n"
          ++ String.intercalate "\n\n---\n\n" (rets.map formatReturnSummary)
  , rr.2)

/-- The `trackShipment` tool handler, over the unauthenticated public
tracking path. -/
def trackShipment (e : Env) (p : IdParams) (remote : Remote) :
    String × List HttpRequest :=
  let rr := getPublicTracking e p.id remote
  ( if tS rr.1.error then
      "Error getting tracking: " ++ jsTemplate rr.1.error
    else
      match asTracking rr.1.data with
      | none => "No tracking information found for shipment " ++ p.id ++ "."
      | some t =>
        String.intercalate "\n"
          (["## Tracking for Shipment " ++ p.id, "", "**Status:** " ++ jsOrD t.status "Unknown"]
           ++ optLineS t.carrier (fun v => "**Carrier:** " ++ v)
           ++ optLineS t.tracking_number (fun v => "**Tracking Number:** " ++ v)
           ++ optLineS t.estimated_delivery (fun v => "**Estimated Delivery:** " ++ v)
           ++ (match t.events with
               | some es =>
                 if es.length > 0 then
                   ["", "### Tracking History"]
                   ++ es.map (fun ev =>
                       "- **" ++ ev.date ++ ":** " ++ ev.description
                         ++ (match ev.location with
                             | some loc => if loc = "" then "" else " (" ++ loc ++ ")"
                             | none => ""))
                 else []
               | none => []))
  , rr.2)

/-- The operations registered in the dispatcher's `switch`. -/
inductive ToolCase where
  | listShipmentsT
  | getShipmentT
  | getRatesT
  | getLabelsT
  | getLineItemsT
  | createShipmentT
  | deleteShipmentT
  | buyPostageT
  | refundShipmentT
  | refreshRatesT
  | countShipmentsT
  | listBatchesT
  | createBatchT
  | getBatchT
  | deleteBatchT
  | addToBatchT
  | removeFromBatchT
  | countBatchesT
  | listReturnsT
  | trackShipmentT
deriving DecidableEq

/-- The registry lookup implicit in the dispatcher's `switch` labels. -/
def toolCase : String → Option ToolCase
  | "chitchats_list_shipments" => some .listShipmentsT
  | "chitchats_get_shipment" => some .getShipmentT
  | "chitchats_get_rates" => some .getRatesT
  | "chitchats_get_labels" => some .getLabelsT
  | "chitchats_get_line_items" => some .getLineItemsT
  | "chitchats_create_shipment" => some .createShipmentT
  | "chitchats_delete_shipment" => some .deleteShipmentT
  | "chitchats_buy_postage" => some .buyPostageT
  | "chitchats_refund_shipment" => some .refundShipmentT
  | "chitchats_refresh_rates" => some .refreshRatesT
  | "chitchats_count_shipments" => some .countShipmentsT
  | "chitchats_list_batches" => some .listBatchesT
  | "chitchats_create_batch" => some .createBatchT
  | "chitchats_get_batch" => some .getBatchT
  | "chitchats_delete_batch" => some .deleteBatchT
  | "chitchats_add_to_batch" => some .addToBatchT
  | "chitchats_remove_from_batch" => some .removeFromBatchT
  | "chitchats_count_batches" => some .countBatchesT
  | "chitchats_list_returns" => some .listReturnsT
  | "chitchats_track_shipment" => some .trackShipmentT
  | _ => none

/-- Typed validated arguments, one constructor per registered operation. -/
inductive ParsedArgs where
  | listShipmentsA (p : ListShipmentsParams)
  | getShipmentA (p : IdParams)
  | getRatesA (p : IdParams)
  | getLabelsA (p : IdParams)
  | getLineItemsA (p : IdParams)
  | createShipmentA (p : CreateShipmentParams)
  | deleteShipmentA (p : IdParams)
  | buyPostageA (p : IdParams)
  | refundShipmentA (p : IdParams)
  | refreshRatesA (p : RefreshRatesParams)
  | countShipmentsA (p : StatusParams)
  | listBatchesA (p : ListBatchesParams)
  | createBatchA (p : CreateBatchParams)
  | getBatchA (p : IdParams)
  | deleteBatchA (p : IdParams)
  | addToBatchA (p : AddToBatchParams)
  | removeFromBatchA (p : RemoveFromBatchParams)
  | countBatchesA (p : StatusParams)
  | listReturnsA (p : ListReturnsParams)
  | trackShipmentA (p : IdParams)
deriving DecidableEq

/-- `args || {}`: the branches whose schema has no required field default
absent arguments to the empty object before parsing. -/
def jsOrEmptyObj (v : JsValue) : JsValue :=
  if v.truthy then v else .obj []

/-- Per-branch schema application, as written at each `case` of the
dispatcher's `switch` (including which branches apply `args || {}`). -/
def parseFor : ToolCase → JsValue → Except String ParsedArgs
  | .listShipmentsT, args => (parseObj parseListShipmentsG (jsOrEmptyObj args)).map .listShipmentsA
  | .getShipmentT, args => (parseObj parseIdG args).map .getShipmentA
  | .getRatesT, args => (parseObj parseIdG args).map .getRatesA
  | .getLabelsT, args => (parseObj parseIdG args).map .getLabelsA
  | .getLineItemsT, args => (parseObj parseIdG args).map .getLineItemsA
  | .createShipmentT, args => (parseObj parseCreateShipmentG args).map .createShipmentA
  | .deleteShipmentT, args => (parseObj parseIdG args).map .deleteShipmentA
  | .buyPostageT, args => (parseObj parseIdG args).map .buyPostageA
  | .refundShipmentT, args => (parseObj parseIdG args).map .refundShipmentA
  | .refreshRatesT, args => (parseObj parseRefreshRatesG args).map .refreshRatesA
  | .countShipmentsT, args => (parseObj parseCountShipmentsG (jsOrEmptyObj args)).map .countShipmentsA
  | .listBatchesT, args => (parseObj parseListBatchesG (jsOrEmptyObj args)).map .listBatchesA
  | .createBatchT, args => (parseObj parseCreateBatchG (jsOrEmptyObj args)).map .createBatchA
  | .getBatchT, args => (parseObj parseIdG args).map .getBatchA
  | .deleteBatchT, args => (parseObj parseIdG args).map .deleteBatchA
  | .addToBatchT, args => (parseObj parseAddToBatchG args).map .addToBatchA
  | .removeFromBatchT, args => (parseObj parseRemoveFromBatchG args).map .removeFromBatchA
  | .countBatchesT, args => (parseObj parseCountBatchesG (jsOrEmptyObj args)).map .countBatchesA
  | .listReturnsT, args => (parseObj parseListReturnsG (jsOrEmptyObj args)).map .listReturnsA
  | .trackShipmentT, args => (parseObj parseIdG args).map .trackShipmentA

/-- Invocation of the matching handler with the validated parameters. -/
def runParsed (e : Env) (p : ParsedArgs) (remote : Remote) : String × List HttpRequest :=
  match p with
  | .listShipmentsA q => listShipments (mkClient e) q remote
  | .getShipmentA q => getShipment (mkClient e) q remote
  | .getRatesA q => getShipmentRates (mkClient e) q remote
  | .getLabelsA q => getShipmentLabels (mkClient e) q remote
  | .getLineItemsA q => getShipmentLineItems (mkClient e) q remote
  | .createShipmentA q => createShipment (mkClient e) q remote
  | .deleteShipmentA q => deleteShipment (mkClient e) q remote
  | .buyPostageA q => buyPostage (mkClient e) q remote
  | .refundShipmentA q => refundShipment (mkClient e) q remote
  | .refreshRatesA q => refreshRates (mkClient e) q remote
  | .countShipmentsA q => countShipments (mkClient e) q remote
  | .listBatchesA q => listBatches (mkClient e) q remote
  | .createBatchA q => createBatch (mkClient e) q remote
  | .getBatchA q => getBatch (mkClient e) q remote
  | .deleteBatchA q => deleteBatch (mkClient e) q remote
  | .addToBatchA q => addToBatch (mkClient e) q remote
  | .removeFromBatchA q => removeFromBatch (mkClient e) q remote
  | .countBatchesA q => countBatches (mkClient e) q remote
  | .listReturnsA q => listReturns (mkClient e) q remote
  | .trackShipmentA q => trackShipment e q remote

/-- The outcome returned across the protocol boundary: one text payload and
the optional `isError` flag exactly as the source sets it (the success
return carries no `isError` field at all). -/
structure DispatchOutcome where
  text : String
  isError : Option Bool
deriving DecidableEq

/-- The `CallToolRequestSchema` handler: look up the switch label, parse the
arguments with the branch's schema (a validation failure throws and is
caught as `Error: <message>` with `isError: true`), run the handler, and
return its text with no `isError` field; an unknown name returns
`Unknown tool: <name>` with `isError: true`.  The second component lists
the network requests performed. -/
def handleCallTool (e : Env) (name : String) (args : JsValue) (remote : Remote) :
    DispatchOutcome × List HttpRequest :=
  match toolCase name with
  | none => ({ text := "Unknown tool: " ++ name, isError := some true }, [])
  | some t =>
    match parseFor t args with
    | .error msg => ({ text := "Error: " ++ msg, isError := some true }, [])
    | .ok p =>
      ({ text := (runParsed e p remote).1, isError := none }, (runParsed e p remote).2)

/-- Whether a string contains any decimal digit. -/
def hasDigit (s : String) : Bool := s.data.any Char.isDigit

/-- A concrete well-formed environment. -/
def envOk : Env := { clientId := some "12345", accessToken := some "tok", baseUrlVar := none }

/-- The client built from `envOk`. -/
def cfgOk : ClientConfig := mkClient envOk

/-- An environment whose access credential is missing. -/
def envNoToken : Env := { clientId := some "12345", accessToken := none, baseUrlVar := none }

/-- A JSON body with no error or message field. -/
def plainBody (p : Payload) : JsonBody := { errorField := none, messageField := none, value := p }

/-- A remote that answers every request identically. -/
def remoteConst (fr : FetchResult) : Remote := fun _ => fr

/-- A concrete tracking payload. -/
def trackingSample : TrackingInfo :=
  { shipment_id := "123", status := "in_transit", carrier := none
  , tracking_number := none, estimated_delivery := none, events := none }

/-- A remote returning 429 with a `Retry-After: 30` header and a parseable
body. -/
def remote429 : Remote :=
  remoteConst (.response 429 (some "30") (.ok (plainBody (.tracked trackingSample))))

/-- `ListShipmentsParams` with every filter absent. -/
def pAllNone : ListShipmentsParams :=
  { limit := none, page := none, batch_id := none, status := none
  , from_date := none, to_date := none, search := none }

/-- What the truthiness-guarded body assembly forwards for an optional
string field: the value when present and nonempty, nothing otherwise. -/
def optForwardS (v : Option String) : Option JsValue :=
  match v with
  | some s => if s = "" then none else some (.str s)
  | none => none

/-- What the truthiness-guarded body assembly forwards for an optional
numeric field: the value when present and nonzero, nothing otherwise. -/
def optForwardN (v : Option Int) : Option JsValue :=
  match v with
  | some n => if n = 0 then none else some (.num n)
  | none => none

/-- The declared field names of `CreateShipmentSchema`. -/
def createShipmentKeys : List String :=
  ["name", "address_1", "address_2", "city", "province_code", "postal_code",
   "country_code", "phone", "email", "package_type", "size_unit", "size_x",
   "size_y", "size_z", "weight_unit", "weight", "description", "value",
   "value_currency", "order_id", "order_store", "postage_type"]

/-- Raw create-shipment arguments containing a present-but-falsy numeric
field (`size_x: 0`), a present-but-empty optional string (`address_2`), and
an undeclared extra field. -/
def createArgsFalsy : JsValue :=
  .obj [("name", .str "Alice"), ("address_1", .str "1 Main St"), ("city", .str "Ottawa"),
        ("province_code", .str "ON"), ("postal_code", .str "K1A0A1"), ("country_code", .str "CA"),
        ("size_x", .num 0), ("address_2", .str ""), ("hacker", .str "x")]

/-- The validated parameters produced from `createArgsFalsy`. -/
def pFalsy : CreateShipmentParams :=
  { name := "Alice", address_1 := "1 Main St", address_2 := some "", city := "Ottawa"
  , province_code := "ON", postal_code := "K1A0A1", country_code := "CA"
  , phone := none, email := none, package_type := none, size_unit := none
  , size_x := some 0, size_y := none, size_z := none, weight_unit := none
  , weight := none, description := none, value := none, value_currency := none
  , order_id := none, order_store := none, postage_type := none }

/-- Raw create-shipment arguments with only the six required fields. -/
def minimalArgs : List (String × JsValue) :=
  [("name", .str "A"), ("address_1", .str "B"), ("city", .str "C"),
   ("province_code", .str "ON"), ("postal_code", .str "K"), ("country_code", .str "CA")]

/-- The validated parameters produced from `minimalArgs`. -/
def pMinimal : CreateShipmentParams :=
  { name := "A", address_1 := "B", address_2 := none, city := "C"
  , province_code := "ON", postal_code := "K", country_code := "CA"
  , phone := none, email := none, package_type := none, size_unit := none
  , size_x := none, size_y := none, size_z := none, weight_unit := none
  , weight := none, description := none, value := none, value_currency := none
  , order_id := none, order_store := none, postage_type := none }

theorem ebind_ok {α β : Type} (a : α) (f : α → Except String β) :
    (Except.ok a >>= f) = f a := rfl

theorem ebind_err {α β : Type} (msg : String) (f : α → Except String β) :
    ((Except.error msg : Except String α) >>= f) = .error msg := rfl

theorem ebind_ok_inv {α β : Type} {e : Except String α} {f : α → Except String β} {b : β}
    (h : (e >>= f) = .ok b) : ∃ a, e = .ok a ∧ f a = .ok b := by
  cases e with
  | error m => rw [ebind_err] at h; exact absurd h (by simp)
  | ok a => exact ⟨a, rfl, h⟩

/-- C7: for every operation name not present in the registry, dispatch
returns an outcome with `isError: true` and text exactly
`"Unknown tool: <name>"`, with no validation and no network call. -/
theorem c7_unknown_tool (e : Env) (name : String) (args : JsValue) (remote : Remote)
    (h : toolCase name = none) :
    handleCallTool e name args remote
      = ({ text := "Unknown tool: " ++ name, isError := some true }, []) := by
  unfold handleCallTool
  rw [h]

/-- C7 witness: the unregistered name `chitchats_foo` yields exactly the
unknown-tool outcome and zero requests. -/
theorem c7_unknown_tool_witness :
    toolCase "chitchats_foo" = none
    ∧ handleCallTool envOk "chitchats_foo" .undefined (remoteConst (.failure .other))
        = ({ text := "Unknown tool: chitchats_foo", isError := some true }, []) :=
  ⟨rfl, c7_unknown_tool envOk "chitchats_foo" .undefined (remoteConst (.failure .other)) rfl⟩

/-- C5: for every registered operation, whenever the branch's schema rejects
the raw arguments (missing required field, bound or enumeration violation),
dispatch returns `isError: true` with text describing the violation, and
performs zero network calls. -/
theorem c5_validation_failure_no_network (e : Env) (name : String) (t : ToolCase)
    (args : JsValue) (msg : String) (remote : Remote)
    (h1 : toolCase name = some t) (h2 : parseFor t args = .error msg) :
    handleCallTool e name args remote
      = ({ text := "Error: " ++ msg, isError := some true }, []) := by
  unfold handleCallTool
  simp only [h1, h2]

/-- C5 witness: a missing required `id` and an out-of-enumeration `status`
each produce an `isError: true` outcome with zero requests. -/
theorem c5_validation_failure_no_network_witness :
    parseFor .getShipmentT (.obj []) = .error "id: Required"
    ∧ handleCallTool envOk "chitchats_get_shipment" (.obj []) (remoteConst (.failure .other))
        = ({ text := "Error: id: Required", isError := some true }, [])
    ∧ parseFor .listBatchesT (.obj [("status", .str "bogus")]) = .error "status: Invalid enum value"
    ∧ handleCallTool envOk "chitchats_list_batches" (.obj [("status", .str "bogus")])
        (remoteConst (.failure .other))
        = ({ text := "Error: status: Invalid enum value", isError := some true }, []) :=
  ⟨rfl,
   c5_validation_failure_no_network envOk "chitchats_get_shipment" .getShipmentT
     (.obj []) "id: Required" (remoteConst (.failure .other)) rfl rfl,
   rfl,
   c5_validation_failure_no_network envOk "chitchats_list_batches" .listBatchesT
     (.obj [("status", .str "bogus")]) "status: Invalid enum value"
     (remoteConst (.failure .other)) rfl rfl⟩

/-- C2: a 429 response is normalized to the rate-limited result: no data,
status 429, and a message whose retry hint slot carries the `Retry-After`
header verbatim when the header is truthy, and the non-numeric word
`unknown` (not zero, not a number) when it is absent. -/
theorem c2_rate_limited_retry_hint (c : ClientConfig) (m ep : String)
    (b : Option (List (String × JsValue))) (ra : Option String)
    (bd : Except JsThrow JsonBody) (remote : Remote)
    (h : remote (buildRequest c m ep b) = .response 429 ra bd) :
    (request c m ep b remote).1
        = { data := none
          , error := some ("Rate limited. Retry after " ++ jsOrS ra "unknown" ++ " seconds.")
          , status := 429 }
    ∧ jsOrS (some "30") "unknown" = "30"
    ∧ jsOrS none "unknown" = "unknown"
    ∧ hasDigit "unknown" = false
    ∧ hasDigit "30" = true := by
  refine ⟨?_, rfl, rfl, rfl, rfl⟩
  have hr : (request c m ep b remote).1 = normalize (remote (buildRequest c m ep b)) := rfl
  rw [hr, h]
  rfl

/-- C2 witness: `Retry-After: 30` yields the hint 30 in the message; no
header yields the hint `unknown`. -/
theorem c2_rate_limited_retry_hint_witness :
    (request cfgOk "GET" "/shipments" none remote429).1
        = { data := none, error := some "Rate limited. Retry after 30 seconds.", status := 429 }
    ∧ (request cfgOk "GET" "/shipments" none
        (remoteConst (.response 429 none (.error .other)))).1
        = { data := none, error := some "Rate limited. Retry after unknown seconds.", status := 429 } := by
  constructor
  · rw [(c2_rate_limited_retry_hint cfgOk "GET" "/shipments" none (some "30")
      (.ok (plainBody (.tracked trackingSample))) remote429 rfl).1]
    rfl
  · rw [(c2_rate_limited_retry_hint cfgOk "GET" "/shipments" none none
      (.error .other) (remoteConst (.response 429 none (.error .other))) rfl).1]
    rfl

/-- C3 counterexample: with the access credential absent, the client does
not fail closed — a warning is logged but the authenticated call still
sends one request (with an empty-string authorization header), and a 200
response yields a success result, not a domainError/transportFailure
shape. -/
theorem c3_counterexample :
    missingCredWarning envNoToken = true
    ∧ (request (mkClient envNoToken) "GET" "/shipments" none
        (remoteConst (.response 200 none (.ok (plainBody (.shipments [])))))).2.length = 1
    ∧ (request (mkClient envNoToken) "GET" "/shipments" none
        (remoteConst (.response 200 none (.ok (plainBody (.shipments [])))))).1
        = { data := some (.shipments []), error := none, status := 200 }
    ∧ (buildRequest (mkClient envNoToken) "GET" "/shipments" none).authorization = some "" :=
  ⟨rfl, rfl, rfl, rfl⟩

/-- C3 amended: a missing client identifier or access credential is
detected (a warning is emitted at module initialization, before any call),
but every authenticated call is still attempted — exactly one request is
sent, carrying `ACCESS_TOKEN || ""` as its authorization header — and the
result is whatever the remote response normalizes to, not a forced error
shape. -/
theorem c3_warned_but_not_fail_closed (e : Env) (m ep : String)
    (b : Option (List (String × JsValue))) (remote : Remote) :
    (tS e.clientId = false ∨ tS e.accessToken = false → missingCredWarning e = true)
    ∧ (request (mkClient e) m ep b remote).2 = [buildRequest (mkClient e) m ep b]
    ∧ (buildRequest (mkClient e) m ep b).authorization = some (jsOrS e.accessToken "") := by
  refine ⟨?_, rfl, rfl⟩
  intro h
  unfold missingCredWarning
  rcases h with h | h <;> simp [h]

/-- C3 witness: the amended statement at the credential-less environment. -/
theorem c3_warned_but_not_fail_closed_witness :
    missingCredWarning envNoToken = true
    ∧ (request (mkClient envNoToken) "GET" "/shipments" none (remoteConst (.failure .other))).2
        = [buildRequest (mkClient envNoToken) "GET" "/shipments" none]
    ∧ (buildRequest (mkClient envNoToken) "GET" "/shipments" none).authorization = some "" := by
  obtain ⟨h1, h2, h3⟩ :=
    c3_warned_but_not_fail_closed envNoToken "GET" "/shipments" none (remoteConst (.failure .other))
  refine ⟨h1 (Or.inr rfl), h2, ?_⟩
  rw [h3]
  rfl

/-- C4 counterexample: the public tracking path does not apply the
authenticated path's normalization — the same 429 response that the
authenticated path turns into a rate-limited error is returned by
`getPublicTracking` as plain data with status 429 and no error. -/
theorem c4_counterexample :
    (getPublicTracking envOk "123" remote429).1
        = { data := some (.tracked trackingSample), error := none, status := 429 }
    ∧ (getPublicTracking envOk "123" remote429).1.error = none
    ∧ (request cfgOk "GET" "/shipments/123" none remote429).1
        = { data := none, error := some "Rate limited. Retry after 30 seconds.", status := 429 } :=
  ⟨rfl, rfl, rfl⟩

/-- C4 amended: the public tracking path shares only the catch-all failure
normalization (a thrown network/parse failure becomes an error message with
status 500); it sends exactly one unauthenticated request to the fixed path
`/tracking/{id}.json`, and any response whose body parses is returned as
data with its status — no 429, 204 or domain-error special-casing. -/
theorem c4_public_tracking_normalization (e : Env) (id : String) (remote : Remote) :
    (getPublicTracking e id remote).2 = [publicTrackingRequest e id]
    ∧ (publicTrackingRequest e id).authorization = none
    ∧ (publicTrackingRequest e id).url = envBaseUrl e ++ "/tracking/" ++ id ++ ".json"
    ∧ (∀ status ra j, remote (publicTrackingRequest e id) = .response status ra (.ok j) →
        (getPublicTracking e id remote).1 = { data := some j.value, error := none, status := status })
    ∧ (∀ status ra t, remote (publicTrackingRequest e id) = .response status ra (.error t) →
        (getPublicTracking e id remote).1 = { data := none, error := some (throwMessage t), status := 500 })
    ∧ (∀ t, remote (publicTrackingRequest e id) = .failure t →
        (getPublicTracking e id remote).1 = { data := none, error := some (throwMessage t), status := 500 }) := by
  refine ⟨rfl, rfl, rfl, ?_, ?_, ?_⟩
  · intro status ra j h
    simp only [getPublicTracking]
    rw [h]
  · intro status ra t h
    simp only [getPublicTracking]
    rw [h]
  · intro t h
    simp only [getPublicTracking]
    rw [h]

/-- C4 witness: the amended statement applied to the concrete 429 remote. -/
theorem c4_public_tracking_normalization_witness :
    (getPublicTracking envOk "123" remote429).2 = [publicTrackingRequest envOk "123"]
    ∧ (publicTrackingRequest envOk "123").authorization = none
    ∧ (getPublicTracking envOk "123" remote429).1
        = { data := some (.tracked trackingSample), error := none, status := 429 } := by
  obtain ⟨h1, h2, _, h4, _, _⟩ := c4_public_tracking_normalization envOk "123" remote429
  exact ⟨h1, h2, h4 429 (some "30") (plainBody (.tracked trackingSample)) rfl⟩

/-- C1 counterexample: a successful dispatch does not wrap the handler text
with `isError: false` — the outcome carries no `isError` field at all. -/
theorem c1_counterexample :
    (handleCallTool envOk "chitchats_count_shipments" (.obj [])
        (remoteConst (.response 200 none (.ok (plainBody (.counted (some 5))))))).1
      = { text := "Total shipments: 5", isError := none }
    ∧ (handleCallTool envOk "chitchats_count_shipments" (.obj [])
        (remoteConst (.response 200 none (.ok (plainBody (.counted (some 5))))))).1.isError
      ≠ some false :=
  ⟨rfl, by decide⟩

/-- C1 amended: the outcome's `isError` is `some true` exactly when the
pipeline did not complete with a handler-produced text (unknown name or
validation failure); when a handler returns, its text is wrapped with the
`isError` field omitted — never a literal `isError: false`. -/
theorem c1_isError_never_false (e : Env) (name : String) (args : JsValue) (remote : Remote) :
    ((handleCallTool e name args remote).1.isError = some true
      ∨ (handleCallTool e name args remote).1.isError = none)
    ∧ ((handleCallTool e name args remote).1.isError = none
        ↔ ∃ t p, toolCase name = some t ∧ parseFor t args = Except.ok p) := by
  unfold handleCallTool
  cases ht : toolCase name with
  | none => simp
  | some t =>
    cases hp : parseFor t args with
    | error m => simp [hp]
    | ok p => simp [hp]

/-- C9: the two cited read-only handlers are deterministic functions of the
validated parameters and the remote's response to the single request they
issue: two remotes that agree on that request produce textually identical
output. -/
theorem c9_read_only_deterministic (c : ClientConfig) (p : ListShipmentsParams) (q : IdParams)
    (r1 r2 : Remote)
    (h1 : ∀ req ∈ (listShipments c p r1).2, r1 req = r2 req)
    (h2 : ∀ req ∈ (getShipment c q r1).2, r1 req = r2 req) :
    listShipments c p r1 = listShipments c p r2
    ∧ getShipment c q r1 = getShipment c q r2 := by
  constructor
  · have h := h1 (buildRequest c "GET" (listShipmentsEndpoint p) none)
      (by simp [listShipments, clientGet, request])
    simp [listShipments, clientGet, request, h]
  · have h := h2 (buildRequest c "GET" ("/shipments/" ++ q.id) none)
      (by simp [getShipment, clientGet, request])
    simp [getShipment, clientGet, request, h]

/-- C9 witness: both handlers at concrete parameters and an unchanged
concrete remote. -/
theorem c9_read_only_deterministic_witness :
    listShipments cfgOk pAllNone (remoteConst (.response 200 none (.ok (plainBody (.shipments [])))))
      = listShipments cfgOk pAllNone (remoteConst (.response 200 none (.ok (plainBody (.shipments [])))))
    ∧ getShipment cfgOk { id := "1" } (remoteConst (.response 200 none (.ok (plainBody (.shipments [])))))
      = getShipment cfgOk { id := "1" } (remoteConst (.response 200 none (.ok (plainBody (.shipments []))))) :=
  c9_read_only_deterministic cfgOk pAllNone { id := "1" }
    (remoteConst (.response 200 none (.ok (plainBody (.shipments [])))))
    (remoteConst (.response 200 none (.ok (plainBody (.shipments [])))))
    (fun _ _ => rfl) (fun _ _ => rfl)

/-- C10: when the remote call succeeds (any 2xx status, or a 204 with no
payload at all) but the payload lacks a `count` field, the count handlers
report 0 — their output is identical to the output for a genuine count of
zero, and equals the `Total ...: 0` sentinel. -/
theorem c10_count_defaults_to_zero (st : Option String) (status : Nat) (ra : Option String)
    (h2xx : 200 ≤ status ∧ status ≤ 299) :
    (countShipments cfgOk { status := st }
        (remoteConst (.response status ra (.ok (plainBody (.counted none)))))).1
      = (countShipments cfgOk { status := st }
          (remoteConst (.response status ra (.ok (plainBody (.counted (some 0))))))).1
    ∧ (countShipments cfgOk { status := st }
        (remoteConst (.response 204 ra (.error .other)))).1
      = (countShipments cfgOk { status := st }
          (remoteConst (.response status ra (.ok (plainBody (.counted (some 0))))))).1
    ∧ (countShipments cfgOk { status := st }
        (remoteConst (.response status ra (.ok (plainBody .rawEmpty))))).1
      = (countShipments cfgOk { status := st }
          (remoteConst (.response status ra (.ok (plainBody (.counted (some 0))))))).1
    ∧ (countBatches cfgOk { status := st }
        (remoteConst (.response status ra (.ok (plainBody (.counted none)))))).1
      = (countBatches cfgOk { status := st }
          (remoteConst (.response status ra (.ok (plainBody (.counted (some 0))))))).1
    ∧ (countShipments cfgOk { status := none }
        (remoteConst (.response 200 none (.ok (plainBody (.counted none)))))).1
      = "Total shipments: 0" := by
  obtain ⟨hlo, hhi⟩ := h2xx
  have h429 : status ≠ 429 := by omega
  by_cases h204 : status = 204
  · subst h204
    exact ⟨rfl, rfl, rfl, rfl, rfl⟩
  · have hok : (200 ≤ status && status ≤ 299) = true := by simp [hlo, hhi]
    refine ⟨?_, ?_, ?_, ?_, rfl⟩ <;>
      simp [countShipments, countBatches, clientGet, request, normalize, remoteConst,
            h429, h204, hok, plainBody, countField, tS]

/-- C10 witness: concrete 200 responses with a missing count and with a
genuine zero count are textually indistinguishable. -/
theorem c10_count_defaults_to_zero_witness :
    (countShipments cfgOk { status := some "pending" }
        (remoteConst (.response 200 none (.ok (plainBody (.counted none)))))).1
      = (countShipments cfgOk { status := some "pending" }
          (remoteConst (.response 200 none (.ok (plainBody (.counted (some 0))))))).1
    ∧ (countShipments cfgOk { status := none }
        (remoteConst (.response 200 none (.ok (plainBody (.counted none)))))).1
      = "Total shipments: 0" := by
  obtain ⟨ha, _, _, _, hb⟩ :=
    c10_count_defaults_to_zero (some "pending") 200 none (by constructor <;> decide)
  exact ⟨ha, hb⟩

/-- C8 counterexample: a 404 response whose body has a present-but-empty
`error` field does not carry that empty message — JS truthiness lets it
fall through to the `message` field, so the result is `boom`, not the empty
string the claim's "error field when present" would require. -/
theorem c8_counterexample :
    ({ errorField := some "", messageField := some "boom", value := .rawEmpty } : JsonBody).errorField
      = some ""
    ∧ (request cfgOk "GET" "/shipments/1" none
        (remoteConst (.response 404 none
          (.ok { errorField := some "", messageField := some "boom", value := .rawEmpty })))).1.error
      = some "boom"
    ∧ (request cfgOk "GET" "/shipments/1" none
        (remoteConst (.response 404 none
          (.ok { errorField := some "", messageField := some "boom", value := .rawEmpty })))).1.error
      ≠ some "" := by
  refine ⟨rfl, rfl, ?_⟩
  intro h
  rw [show (request cfgOk "GET" "/shipments/1" none
        (remoteConst (.response 404 none
          (.ok { errorField := some "", messageField := some "boom", value := .rawEmpty })))).1.error
      = some "boom" from rfl] at h
  simp at h

/-- C8 amended: a response whose status is neither 429, 204 nor 2xx, and
whose body parses, yields a domainError carrying the status code and the
first JS-truthy message among the body's `error` field, the body's
`message` field, and the fallback `HTTP {status}` (a present-but-empty
field falls through). -/
theorem c8_domain_error_message (c : ClientConfig) (m ep : String)
    (b : Option (List (String × JsValue))) (status : Nat) (ra : Option String)
    (j : JsonBody) (remote : Remote)
    (h : remote (buildRequest c m ep b) = .response status ra (.ok j))
    (h429 : status ≠ 429) (h204 : status ≠ 204)
    (hko : ¬ (200 ≤ status ∧ status ≤ 299)) :
    (request c m ep b remote).1
      = { data := none
        , error := some (jsOrS j.errorField (jsOrS j.messageField ("HTTP " ++ toString status)))
        , status := status } := by
  have hr : (request c m ep b remote).1 = normalize (remote (buildRequest c m ep b)) := rfl
  have hok : (200 ≤ status && status ≤ 299) = false := by
    simp only [Bool.and_eq_false_iff, decide_eq_false_iff_not]
    by_cases hlo : 200 ≤ status
    · exact Or.inr (fun hhi => hko ⟨hlo, hhi⟩)
    · exact Or.inl hlo
  rw [hr, h]
  simp only [normalize]
  rw [if_neg h429, if_neg h204]
  simp only [hok]
  rfl

/-- C8 witness: a 404 with body `error: "not found"` yields a domainError
with message `not found` and status 404. -/
theorem c8_domain_error_message_witness :
    (request cfgOk "GET" "/shipments/9" none
        (remoteConst (.response 404 none
          (.ok { errorField := some "not found", messageField := none, value := .rawEmpty })))).1
      = { data := none, error := some "not found", status := 404 } := by
  rw [c8_domain_error_message cfgOk "GET" "/shipments/9" none 404 none
    { errorField := some "not found", messageField := none, value := .rawEmpty }
    (remoteConst (.response 404 none
      (.ok { errorField := some "not found", messageField := none, value := .rawEmpty })))
    rfl (by decide) (by decide) (by decide)]
  rfl

theorem lookup_append (k : String) (l1 l2 : List (String × JsValue)) :
    (l1 ++ l2).lookup k =
      (match l1.lookup k with
       | some v => some v
       | none => l2.lookup k) := by
  induction l1 with
  | nil => simp [List.lookup]
  | cons hd tl ih =>
    obtain ⟨k', v⟩ := hd
    by_cases h : k = k'
    · simp [List.lookup, h]
    · simp [List.lookup, beq_eq_false_iff_ne.mpr h, ih]

theorem lookup_bS_self (k : String) (v : Option String) :
    (bS k v).lookup k = optForwardS v := by
  cases v with
  | none => rfl
  | some s =>
    by_cases h : s = "" <;> simp [bS, optForwardS, h, List.lookup]

theorem lookup_bS_ne (k k' : String) (v : Option String) (h : ¬ k = k') :
    (bS k' v).lookup k = none := by
  cases v with
  | none => rfl
  | some s =>
    by_cases hs : s = "" <;> simp [bS, hs, List.lookup, beq_eq_false_iff_ne.mpr h]

theorem lookup_bN_self (k : String) (v : Option Int) :
    (bN k v).lookup k = optForwardN v := by
  cases v with
  | none => rfl
  | some n =>
    by_cases h : n = 0 <;> simp [bN, optForwardN, h, List.lookup]

theorem lookup_bN_ne (k k' : String) (v : Option Int) (h : ¬ k = k') :
    (bN k' v).lookup k = none := by
  cases v with
  | none => rfl
  | some n =>
    by_cases hn : n = 0 <;> simp [bN, hn, List.lookup, beq_eq_false_iff_ne.mpr h]

theorem opt_match_id (o : Option JsValue) :
    (match o with | some v => some v | none => none) = o := by
  cases o <;> rfl

theorem mem_bS_key {kv : String × JsValue} {k' : String} {w : Option String}
    (h : kv ∈ bS k' w) : kv.1 = k' := by
  cases w with
  | none => simp [bS] at h
  | some s =>
    by_cases hs : s = ""
    · simp [bS, hs] at h
    · simp [bS, hs] at h
      subst h
      rfl

theorem mem_bN_key {kv : String × JsValue} {k' : String} {w : Option Int}
    (h : kv ∈ bN k' w) : kv.1 = k' := by
  cases w with
  | none => simp [bN] at h
  | some n =>
    by_cases hn : n = 0
    · simp [bN, hn] at h
    · simp [bN, hn] at h
      subst h
      rfl

theorem createShipmentBody_keys (p : CreateShipmentParams) :
    ∀ kv ∈ createShipmentBody p, kv.1 ∈ createShipmentKeys := by
  intro kv h
  simp only [createShipmentBody, List.mem_append, List.mem_cons, List.not_mem_nil,
    or_false, or_assoc] at h
  rcases h with h|h|h|h|h|h|h|h|h|h|h|h|h|h|h|h|h|h|h|h|h|h
  all_goals first
    | (rw [mem_bS_key h]; decide)
    | (rw [mem_bN_key h]; decide)
    | (subst h; simp [createShipmentKeys])

theorem getField_cons_self (k : String) (v : JsValue) (l : List (String × JsValue)) :
    getField ((k, v) :: l) k = v := by
  simp [getField, List.lookup]

theorem getField_cons_ne (k k' : String) (v : JsValue) (l : List (String × JsValue))
    (h : ¬ k = k') :
    getField ((k', v) :: l) k = getField l k := by
  simp [getField, List.lookup, beq_eq_false_iff_ne.mpr h]

theorem getField_filter (keys : List String) (fields : List (String × JsValue)) (k : String)
    (hk : k ∈ keys) :
    getField (fields.filter (fun kv => decide (kv.1 ∈ keys))) k = getField fields k := by
  induction fields with
  | nil => rfl
  | cons hd tl ih =>
    obtain ⟨k', v⟩ := hd
    by_cases h : k = k'
    · subst h
      rw [List.filter_cons, if_pos (by simpa using hk), getField_cons_self, getField_cons_self]
    · by_cases h2 : k' ∈ keys
      · rw [List.filter_cons, if_pos (by simpa using h2), getField_cons_ne _ _ _ _ h,
            getField_cons_ne _ _ _ _ h]
        exact ih
      · rw [List.filter_cons, if_neg (by simpa using h2), getField_cons_ne _ _ _ _ h]
        exact ih

theorem parseCreateShipmentG_congr (g1 g2 : String → JsValue)
    (h : ∀ k ∈ createShipmentKeys, g1 k = g2 k) :
    parseCreateShipmentG g1 = parseCreateShipmentG g2 := by
  unfold parseCreateShipmentG
  rw [h "name" (by decide), h "address_1" (by decide), h "address_2" (by decide),
      h "city" (by decide), h "province_code" (by decide), h "postal_code" (by decide),
      h "country_code" (by decide), h "phone" (by decide), h "email" (by decide),
      h "package_type" (by decide), h "size_unit" (by decide), h "size_x" (by decide),
      h "size_y" (by decide), h "size_z" (by decide), h "weight_unit" (by decide),
      h "weight" (by decide), h "description" (by decide), h "value" (by decide),
      h "value_currency" (by decide), h "order_id" (by decide), h "order_store" (by decide),
      h "postage_type" (by decide)]

theorem parseCreateShipment_ignores_unknown (fields : List (String × JsValue)) :
    parseObj parseCreateShipmentG
        (.obj (fields.filter (fun kv => decide (kv.1 ∈ createShipmentKeys))))
      = parseObj parseCreateShipmentG (.obj fields) := by
  unfold parseObj
  exact parseCreateShipmentG_congr _ _
    (fun k hk => getField_filter createShipmentKeys fields k hk)

theorem parseCreateShipment_ok_fields (g : String → JsValue) (p : CreateShipmentParams)
    (h : parseCreateShipmentG g = .ok p) :
    zReqString "name" (g "name") = .ok p.name
    ∧ zReqString "address_1" (g "address_1") = .ok p.address_1
    ∧ zOptString "address_2" (g "address_2") = .ok p.address_2
    ∧ zReqString "city" (g "city") = .ok p.city
    ∧ zReqString "province_code" (g "province_code") = .ok p.province_code
    ∧ zReqString "postal_code" (g "postal_code") = .ok p.postal_code
    ∧ zReqString "country_code" (g "country_code") = .ok p.country_code
    ∧ zOptString "phone" (g "phone") = .ok p.phone
    ∧ zOptString "email" (g "email") = .ok p.email
    ∧ zOptEnum "package_type" ["parcel", "thick_envelope", "flat_rate_envelope"] (g "package_type") = .ok p.package_type
    ∧ zOptEnum "size_unit" ["cm", "in"] (g "size_unit") = .ok p.size_unit
    ∧ zOptNumber "size_x" none none (g "size_x") = .ok p.size_x
    ∧ zOptNumber "size_y" none none (g "size_y") = .ok p.size_y
    ∧ zOptNumber "size_z" none none (g "size_z") = .ok p.size_z
    ∧ zOptEnum "weight_unit" ["g", "kg", "oz", "lb"] (g "weight_unit") = .ok p.weight_unit
    ∧ zOptNumber "weight" none none (g "weight") = .ok p.weight
    ∧ zOptString "description" (g "description") = .ok p.description
    ∧ zOptNumber "value" none none (g "value") = .ok p.value
    ∧ zOptEnum "value_currency" ["CAD", "USD"] (g "value_currency") = .ok p.value_currency
    ∧ zOptString "order_id" (g "order_id") = .ok p.order_id
    ∧ zOptString "order_store" (g "order_store") = .ok p.order_store
    ∧ zOptString "postage_type" (g "postage_type") = .ok p.postage_type := by
  unfold parseCreateShipmentG at h
  obtain ⟨v1, h1, h⟩ := ebind_ok_inv h
  obtain ⟨v2, h2, h⟩ := ebind_ok_inv h
  obtain ⟨v3, h3, h⟩ := ebind_ok_inv h
  obtain ⟨v4, h4, h⟩ := ebind_ok_inv h
  obtain ⟨v5, h5, h⟩ := ebind_ok_inv h
  obtain ⟨v6, h6, h⟩ := ebind_ok_inv h
  obtain ⟨v7, h7, h⟩ := ebind_ok_inv h
  obtain ⟨v8, h8, h⟩ := ebind_ok_inv h
  obtain ⟨v9, h9, h⟩ := ebind_ok_inv h
  obtain ⟨v10, h10, h⟩ := ebind_ok_inv h
  obtain ⟨v11, h11, h⟩ := ebind_ok_inv h
  obtain ⟨v12, h12, h⟩ := ebind_ok_inv h
  obtain ⟨v13, h13, h⟩ := ebind_ok_inv h
  obtain ⟨v14, h14, h⟩ := ebind_ok_inv h
  obtain ⟨v15, h15, h⟩ := ebind_ok_inv h
  obtain ⟨v16, h16, h⟩ := ebind_ok_inv h
  obtain ⟨v17, h17, h⟩ := ebind_ok_inv h
  obtain ⟨v18, h18, h⟩ := ebind_ok_inv h
  obtain ⟨v19, h19, h⟩ := ebind_ok_inv h
  obtain ⟨v20, h20, h⟩ := ebind_ok_inv h
  obtain ⟨v21, h21, h⟩ := ebind_ok_inv h
  obtain ⟨v22, h22, h⟩ := ebind_ok_inv h
  have hp := Except.ok.inj h
  subst hp
  exact ⟨h1, h2, h3, h4, h5, h6, h7, h8, h9, h10, h11, h12, h13, h14, h15, h16,
         h17, h18, h19, h20, h21, h22⟩

theorem parseCreateShipment_absent_omitted (g : String → JsValue) (p : CreateShipmentParams)
    (h : parseCreateShipmentG g = .ok p) :
    (g "address_2" = .undefined → p.address_2 = none)
    ∧ (g "phone" = .undefined → p.phone = none)
    ∧ (g "email" = .undefined → p.email = none)
    ∧ (g "package_type" = .undefined → p.package_type = none)
    ∧ (g "size_unit" = .undefined → p.size_unit = none)
    ∧ (g "size_x" = .undefined → p.size_x = none)
    ∧ (g "size_y" = .undefined → p.size_y = none)
    ∧ (g "size_z" = .undefined → p.size_z = none)
    ∧ (g "weight_unit" = .undefined → p.weight_unit = none)
    ∧ (g "weight" = .undefined → p.weight = none)
    ∧ (g "description" = .undefined → p.description = none)
    ∧ (g "value" = .undefined → p.value = none)
    ∧ (g "value_currency" = .undefined → p.value_currency = none)
    ∧ (g "order_id" = .undefined → p.order_id = none)
    ∧ (g "order_store" = .undefined → p.order_store = none)
    ∧ (g "postage_type" = .undefined → p.postage_type = none) := by
  obtain ⟨h1, h2, h3, h4, h5, h6, h7, h8, h9, h10, h11, h12, h13, h14, h15, h16,
          h17, h18, h19, h20, h21, h22⟩ := parseCreateShipment_ok_fields g p h
  exact ⟨fun hu => by rw [hu] at h3; exact (Except.ok.inj h3).symm,
         fun hu => by rw [hu] at h8; exact (Except.ok.inj h8).symm,
         fun hu => by rw [hu] at h9; exact (Except.ok.inj h9).symm,
         fun hu => by rw [hu] at h10; exact (Except.ok.inj h10).symm,
         fun hu => by rw [hu] at h11; exact (Except.ok.inj h11).symm,
         fun hu => by rw [hu] at h12; exact (Except.ok.inj h12).symm,
         fun hu => by rw [hu] at h13; exact (Except.ok.inj h13).symm,
         fun hu => by rw [hu] at h14; exact (Except.ok.inj h14).symm,
         fun hu => by rw [hu] at h15; exact (Except.ok.inj h15).symm,
         fun hu => by rw [hu] at h16; exact (Except.ok.inj h16).symm,
         fun hu => by rw [hu] at h17; exact (Except.ok.inj h17).symm,
         fun hu => by rw [hu] at h18; exact (Except.ok.inj h18).symm,
         fun hu => by rw [hu] at h19; exact (Except.ok.inj h19).symm,
         fun hu => by rw [hu] at h20; exact (Except.ok.inj h20).symm,
         fun hu => by rw [hu] at h21; exact (Except.ok.inj h21).symm,
         fun hu => by rw [hu] at h22; exact (Except.ok.inj h22).symm⟩

/-- C6 counterexample: raw arguments whose declared optional fields carry
JS-falsy values (`size_x: 0`, `address_2: ""`) validate successfully — the
values are present in the validated parameters — yet the outgoing body
omits them, so not every declared field present in the validated parameters
is forwarded (the unknown extra field is ignored by validation, as
expected). -/
theorem c6_counterexample :
    parseObj parseCreateShipmentG createArgsFalsy = .ok pFalsy
    ∧ pFalsy.size_x = some 0
    ∧ pFalsy.address_2 = some ""
    ∧ (createShipmentBody pFalsy).lookup "size_x" = none
    ∧ (createShipmentBody pFalsy).lookup "address_2" = none :=
  ⟨rfl, rfl, rfl, rfl, rfl⟩

/-- C6 amended: validation whitelists the declared fields (unknown extras
are ignored, an absent optional field is omitted from the validated
parameters, never defaulted), and the handler forwards the six required
fields always, while forwarding a declared optional field only when its
value is JS-truthy — a present-but-falsy value (empty string, zero) is
omitted from the outgoing body exactly like an absent one; nothing outside
the declared fields is ever placed in the body. -/
theorem c6_truthy_forwarding_only :
    (∀ p : CreateShipmentParams,
      (createShipmentBody p).lookup "name" = some (.str p.name)
      ∧ (createShipmentBody p).lookup "address_1" = some (.str p.address_1)
      ∧ (createShipmentBody p).lookup "city" = some (.str p.city)
      ∧ (createShipmentBody p).lookup "province_code" = some (.str p.province_code)
      ∧ (createShipmentBody p).lookup "postal_code" = some (.str p.postal_code)
      ∧ (createShipmentBody p).lookup "country_code" = some (.str p.country_code)
      ∧ (createShipmentBody p).lookup "address_2" = optForwardS p.address_2
      ∧ (createShipmentBody p).lookup "phone" = optForwardS p.phone
      ∧ (createShipmentBody p).lookup "email" = optForwardS p.email
      ∧ (createShipmentBody p).lookup "package_type" = optForwardS p.package_type
      ∧ (createShipmentBody p).lookup "size_unit" = optForwardS p.size_unit
      ∧ (createShipmentBody p).lookup "size_x" = optForwardN p.size_x
      ∧ (createShipmentBody p).lookup "size_y" = optForwardN p.size_y
      ∧ (createShipmentBody p).lookup "size_z" = optForwardN p.size_z
      ∧ (createShipmentBody p).lookup "weight_unit" = optForwardS p.weight_unit
      ∧ (createShipmentBody p).lookup "weight" = optForwardN p.weight
      ∧ (createShipmentBody p).lookup "description" = optForwardS p.description
      ∧ (createShipmentBody p).lookup "value" = optForwardN p.value
      ∧ (createShipmentBody p).lookup "value_currency" = optForwardS p.value_currency
      ∧ (createShipmentBody p).lookup "order_id" = optForwardS p.order_id
      ∧ (createShipmentBody p).lookup "order_store" = optForwardS p.order_store
      ∧ (createShipmentBody p).lookup "postage_type" = optForwardS p.postage_type
      ∧ ∀ kv ∈ createShipmentBody p, kv.1 ∈ createShipmentKeys)
    ∧ (∀ fields : List (String × JsValue),
        parseObj parseCreateShipmentG
            (.obj (fields.filter (fun kv => decide (kv.1 ∈ createShipmentKeys))))
          = parseObj parseCreateShipmentG (.obj fields))
    ∧ (∀ (g : String → JsValue) (p : CreateShipmentParams),
        parseCreateShipmentG g = .ok p →
        (g "address_2" = .undefined → p.address_2 = none)
        ∧ (g "phone" = .undefined → p.phone = none)
        ∧ (g "email" = .undefined → p.email = none)
        ∧ (g "package_type" = .undefined → p.package_type = none)
        ∧ (g "size_unit" = .undefined → p.size_unit = none)
        ∧ (g "size_x" = .undefined → p.size_x = none)
        ∧ (g "size_y" = .undefined → p.size_y = none)
        ∧ (g "size_z" = .undefined → p.size_z = none)
        ∧ (g "weight_unit" = .undefined → p.weight_unit = none)
        ∧ (g "weight" = .undefined → p.weight = none)
        ∧ (g "description" = .undefined → p.description = none)
        ∧ (g "value" = .undefined → p.value = none)
        ∧ (g "value_currency" = .undefined → p.value_currency = none)
        ∧ (g "order_id" = .undefined → p.order_id = none)
        ∧ (g "order_store" = .undefined → p.order_store = none)
        ∧ (g "postage_type" = .undefined → p.postage_type = none)) := by
  refine ⟨fun p => ?_, parseCreateShipment_ignores_unknown, parseCreateShipment_absent_omitted⟩
  refine ⟨?_, ?_, ?_, ?_, ?_, ?_, ?_, ?_, ?_, ?_, ?_, ?_, ?_, ?_, ?_, ?_, ?_, ?_,
          ?_, ?_, ?_, ?_, createShipmentBody_keys p⟩ <;>
    (simp only [createShipmentBody, lookup_append]
     simp [List.lookup, lookup_bS_self, lookup_bS_ne, lookup_bN_self, lookup_bN_ne,
           opt_match_id])

/-- C6 witness: the amended statement at concrete inputs — a falsy present
field is not forwarded, required fields are, and a minimal input leaves
absent optionals omitted from the validated parameters. -/
theorem c6_truthy_forwarding_only_witness :
    (createShipmentBody pFalsy).lookup "size_x" = none
    ∧ (createShipmentBody pFalsy).lookup "name" = some (.str "Alice")
    ∧ pMinimal.address_2 = none := by
  obtain ⟨hbody, hfilter, habs⟩ := c6_truthy_forwarding_only
  obtain ⟨hn, _, _, _, _, _, _, _, _, _, _, hsx, _⟩ := hbody pFalsy
  exact ⟨hsx.trans rfl, hn, (habs (getField minimalArgs) pMinimal rfl).1 rfl⟩

end ChitChats
